import Mathlib

/-!
# DIDI attendance backend: a shallow embedding

The backend keeps all of its state in process-local containers: the array
`students` of `didService.js`, the map `attendanceRecords` of
`attendanceService.js` and the map `credentials` of `credentialService.js`.
Every service method is embedded as a pure function that takes the containers
it reads and returns the containers it leaves behind together with its outcome
(`Except JsError _`: a returned value, or the error the method throws).

Values the methods read from their environment (`Date.now()`,
`crypto.randomBytes`, `Math.random`) are explicit arguments.
-/

/-! ## JavaScript values, errors and maps -/

/-- Errors thrown at run time: `new Error(msg)` raised by the services, the
`TypeError` of calling a member that is not a function, and the `RangeError`
of `Date.prototype.toISOString` on an invalid time value. -/
inductive JsError where
  | error (message : String)
  | typeError (message : String)
  | rangeError (message : String)
  deriving DecidableEq, Repr

/-- Insertion-ordered `Map` with string keys, as an association list. -/
abbrev JsMap (α : Type) := List (String × α)

namespace JsMap

/-- Method `Map.prototype.get`: the value stored under `key`, `none` for `undefined`. -/
def get {α : Type} : JsMap α → String → Option α
  | [], _ => none
  | (k, v) :: rest, key => if k = key then some v else get rest key

/-- Method `Map.prototype.set`: overwrite in place when the key is present, append a
new entry otherwise. -/
def set {α : Type} : JsMap α → String → α → JsMap α
  | [], key, value => [(key, value)]
  | (k, v) :: rest, key, value =>
    if k = key then (k, value) :: rest else (k, v) :: set rest key value

/-- Keys of the map in insertion order. -/
def keys {α : Type} (m : JsMap α) : List String := m.map Prod.fst

end JsMap

/-- JavaScript values. Numbers that occur are integers. -/
inductive JsVal where
  | undefined
  | null
  | bool (b : Bool)
  | num (n : Int)
  | str (s : String)
  | arr (items : List JsVal)
  | obj (props : List (String × JsVal))

/-- Plain object: its own properties in insertion order. -/
abbrev JsObject := List (String × JsVal)

/-- Truthiness (`ToBoolean`): `undefined`, `null`, `false`, `0` and the empty
string are falsy, everything else, every object and array included, is
truthy. -/
def JsVal.truthy : JsVal → Bool
  | .undefined => false
  | .null => false
  | .bool b => b
  | .num n => decide (n ≠ 0)
  | .str s => decide (s ≠ "")
  | .arr _ => true
  | .obj _ => true

/-- Property read `o.name` on a plain object: `undefined` when the object has
no such property. -/
def JsObject.prop (o : JsObject) (name : String) : JsVal :=
  (JsMap.get o name).getD .undefined

/-! ## didService.js -/

/-- Element of `verificationMethod` in a DID document. -/
structure VerificationMethod where
  id : String
  type : String
  controller : String
  publicKeyBase58 : String
  deriving DecidableEq, Repr

/-- DID document built by `MockIotaIdentity.createDid` (lines 13-27). -/
structure DidDocument where
  id : String
  controller : String
  verificationMethod : List VerificationMethod
  authentication : List String
  assertionMethod : List String
  keyAgreement : List String
  capabilityInvocation : List String
  capabilityDelegation : List String
  deriving DecidableEq, Repr

/-- Entry of the `students` array. Only the students pushed by `createDID` have
a `didDocument`; the objects the lookups return never have one. -/
structure Student where
  id : String
  name : String
  email : String
  did : String
  nfcUid : String
  department : String
  enrollmentDate : String
  didDocument : Option DidDocument := none
  deriving DecidableEq, Repr

/-- Object literal `{ success, error }` or `{ success, student }` returned by the
lookups of `DIDService`. -/
structure StudentLookup where
  success : Bool
  error : Option String
  student : Option Student
  deriving DecidableEq, Repr

/-- The student object `{ id, name, email, did, nfcUid, department,
enrollmentDate }` as a JavaScript value. -/
def Student.toJs (s : Student) : JsObject :=
  [ ("id", .str s.id), ("name", .str s.name), ("email", .str s.email), ("did", .str s.did),
    ("nfcUid", .str s.nfcUid), ("department", .str s.department),
    ("enrollmentDate", .str s.enrollmentDate) ]

/-- The lookup result as a JavaScript value: `success`, then `error` and
`student` when present. -/
def StudentLookup.toJs (l : StudentLookup) : JsObject :=
  [("success", .bool l.success)]
    ++ (match l.error with
        | none => []
        | some e => [("error", .str e)])
    ++ (match l.student with
        | none => []
        | some s => [("student", .obj s.toJs)])

/-- Truthiness of a lookup result, as tested by `if (!student)`. -/
def StudentLookup.truthy (l : StudentLookup) : Bool := (JsVal.obj l.toJs).truthy

/-- Truthiness of `student.certificateIssued` on a lookup result. -/
def StudentLookup.certificateIssued (l : StudentLookup) : Bool :=
  (l.toJs.prop "certificateIssued").truthy

namespace DIDService

/-- Module-level `students` array of `didService.js` (lines 48-76). Every entry
already carries a `did`, so the initialisation loop of lines 79-84 changes
nothing. -/
def students : List Student :=
  [ { id := "1", name := "Alice Johnson", email := "alice@university.edu",
      did := "did:iota:alice123", nfcUid := "A1B2C3D4",
      department := "Computer Science", enrollmentDate := "2024-01-15" },
    { id := "2", name := "Bob Smith", email := "bob@university.edu",
      did := "did:iota:bob456", nfcUid := "E5F6G7H8",
      department := "Mathematics", enrollmentDate := "2024-01-20" },
    { id := "3", name := "Carol Davis", email := "carol@university.edu",
      did := "did:iota:carol789", nfcUid := "I9J0K1L2",
      department := "Physics", enrollmentDate := "2024-01-25" } ]

/-- Method `getStudentByDID` (lines 141-162): first student with the given DID. -/
def getStudentByDID (students : List Student) (did : String) : StudentLookup :=
  match students.find? (fun s => s.did = did) with
  | none => { success := false, error := some "Student not found", student := none }
  | some student =>
    { success := true, error := none,
      student := some
        { id := student.id, name := student.name, email := student.email,
          did := student.did, nfcUid := student.nfcUid,
          department := student.department,
          enrollmentDate := student.enrollmentDate } }

/-- Call `didService.updateAttendanceCount(did, count)`. The class `DIDService`
(lines 86-251) defines the members `createDID`, `getAllStudents`,
`getStudentByDID`, `getStudentByNFCUid`, `verifyDID`, `getDIDDocument`,
`updateStudent` and `deleteStudent` only, and nothing adds members to the
exported instance, so the callee is `undefined` and the call expression throws
a `TypeError`. -/
def updateAttendanceCount (_did : String) (_count : Nat) : Except JsError Unit :=
  .error (.typeError "didService.updateAttendanceCount is not a function")

/-- Call `didService.issueCertificate(did)`: no such member exists either (see
`updateAttendanceCount`), the call expression throws a `TypeError`. -/
def issueCertificate (_did : String) : Except JsError Unit :=
  .error (.typeError "didService.issueCertificate is not a function")

end DIDService

/-! ## attendanceService.js -/

/-- Element of the arrays kept in `attendanceRecords`. The seeded records have
no `transactionHash`. -/
structure AttendanceRecord where
  timestamp : Int
  sessionId : Nat
  transactionHash : Option String
  deriving DecidableEq, Repr

/-- The map `attendanceRecords`: DID to array of records. -/
abbrev AttendanceStore := JsMap (List AttendanceRecord)

/-- Milliseconds in a day, `24 * 60 * 60 * 1000`. -/
def msPerDay : Int := 24 * 60 * 60 * 1000

/-- Day bucket `Math.floor(timestamp / (24 * 60 * 60 * 1000))`. Integer division
of `Int` rounds towards minus infinity for a positive divisor (see
`dayBucket_eq_floor`). -/
def dayBucket (timestamp : Int) : Int := timestamp / msPerDay

/-- Function `Math.round`: the nearest integer, halves rounded up. -/
def jsRound (x : ℚ) : Int := ⌊x + 1 / 2⌋

/-- Values `markAttendanceByDID` reads from its environment: `Date.now()`, the
random session id of `getNextSessionId` and the random transaction hash. -/
structure MarkEnv where
  now : Int
  sessionId : Nat
  transactionHash : String
  deriving DecidableEq, Repr

/-- Object returned by `markAttendanceByDID`. -/
structure MarkResult where
  success : Bool
  record : AttendanceRecord
  attendanceCount : Nat
  attendancePercentage : Int
  certificateIssued : Bool
  deriving DecidableEq, Repr

namespace AttendanceService

/-- Method `initializeMockData` (lines 13-47). Each record reads `Date.now()` anew;
`clock i` is the value of the `i`-th read, in evaluation order. -/
def initializeMockData (clock : Nat → Int) (attendanceRecords : AttendanceStore) :
    AttendanceStore :=
  let mockAttendance : List (String × List AttendanceRecord) :=
    [ ("did:iota:test:student1",
        [ { timestamp := clock 0 - 86400000 * 7, sessionId := 1, transactionHash := none },
          { timestamp := clock 1 - 86400000 * 5, sessionId := 2, transactionHash := none },
          { timestamp := clock 2 - 86400000 * 3, sessionId := 3, transactionHash := none },
          { timestamp := clock 3 - 86400000 * 1, sessionId := 4, transactionHash := none } ]),
      ("did:iota:test:student2",
        [ { timestamp := clock 4 - 86400000 * 6, sessionId := 1, transactionHash := none },
          { timestamp := clock 5 - 86400000 * 4, sessionId := 2, transactionHash := none },
          { timestamp := clock 6 - 86400000 * 2, sessionId := 3, transactionHash := none } ]),
      ("did:iota:test:student3",
        [ { timestamp := clock 7 - 86400000 * 8, sessionId := 1, transactionHash := none },
          { timestamp := clock 8 - 86400000 * 6, sessionId := 2, transactionHash := none },
          { timestamp := clock 9 - 86400000 * 4, sessionId := 3, transactionHash := none },
          { timestamp := clock 10 - 86400000 * 2, sessionId := 4, transactionHash := none },
          { timestamp := clock 11 - 86400000 * 1, sessionId := 5, transactionHash := none } ]) ]
  mockAttendance.foldl (fun store attendance => store.set attendance.1 attendance.2)
    attendanceRecords

/-- Method `calculateAttendancePercentage` (lines 160-167). The quotient and the
product are taken in exact rational arithmetic. -/
def calculateAttendancePercentage (attendanceRecords : AttendanceStore) (did : String) : Int :=
  let records := (attendanceRecords.get did).getD []
  let totalPossibleSessions : Nat := 10
  let attendedSessions := records.length
  if totalPossibleSessions > 0 then
    jsRound (((attendedSessions : ℚ) / (totalPossibleSessions : ℚ)) * 100)
  else 0

/-- Method `getAttendancePercentage` (lines 151-158): the guarded body cannot throw. -/
def getAttendancePercentage (attendanceRecords : AttendanceStore) (did : String) :
    Except JsError Int :=
  .ok (calculateAttendancePercentage attendanceRecords did)

/-- Method `markAttendanceByDID` (lines 66-122) on the student array and the record
map. The first component is the record map the call leaves behind, whether it
returns or throws; the `catch` of lines 118-121 rethrows unchanged. -/
def markAttendanceByDID (env : MarkEnv) (students : List Student)
    (attendanceRecords : AttendanceStore) (did : String) :
    AttendanceStore × Except JsError MarkResult :=
  let student := DIDService.getStudentByDID students did
  if !student.truthy then
    (attendanceRecords, .error (.error "Student not found"))
  else
    let currentTime := env.now
    let currentDay := dayBucket currentTime
    let existingRecords := (attendanceRecords.get did).getD []
    let todayRecord := existingRecords.find? (fun record =>
      let recordDay := dayBucket record.timestamp
      recordDay = currentDay)
    match todayRecord with
    | some _ => (attendanceRecords, .error (.error "Attendance already marked for today"))
    | none =>
      let newRecord : AttendanceRecord :=
        { timestamp := currentTime, sessionId := env.sessionId,
          transactionHash := some env.transactionHash }
      let existingRecords := existingRecords ++ [newRecord]
      let attendanceRecords := attendanceRecords.set did existingRecords
      match DIDService.updateAttendanceCount did existingRecords.length with
      | .error e => (attendanceRecords, .error e)
      | .ok _ =>
        let attendancePercentage := calculateAttendancePercentage attendanceRecords did
        let issued : Except JsError Unit :=
          if attendancePercentage ≥ 80 && !student.certificateIssued then
            DIDService.issueCertificate did
          else .ok ()
        match issued with
        | .error e => (attendanceRecords, .error e)
        | .ok _ =>
          (attendanceRecords,
            .ok { success := true, record := newRecord,
                  attendanceCount := existingRecords.length,
                  attendancePercentage := attendancePercentage,
                  certificateIssued := decide (attendancePercentage ≥ 80) })

end AttendanceService

/-! ### getAttendance -/

/-- Result of `new Date(timestamp).toISOString()`. The ISO-8601 text is a
function of the time value alone; it is represented by the time value. -/
structure IsoDate where
  ms : Int
  deriving DecidableEq, Repr

/-- Largest magnitude of a time value of a `Date`: 8.64e15 ms. -/
def maxTimeValue : Int := 8640000000000000

/-- Time values a `Date` can hold; `new Date(t)` is an invalid date outside. -/
def isTimeValue (t : Int) : Bool := decide (-maxTimeValue ≤ t) && decide (t ≤ maxTimeValue)

/-- Expression `new Date(t).toISOString()`: throws `RangeError` on an invalid date. -/
def toISOString (t : Int) : Except JsError IsoDate :=
  if isTimeValue t then .ok { ms := t } else .error (.rangeError "Invalid time value")

/-- Element of `records` in the result of `getAttendance`:
`{ ...record, date }`. -/
structure RecordView where
  timestamp : Int
  sessionId : Nat
  transactionHash : Option String
  date : IsoDate
  deriving DecidableEq, Repr

/-- Property `student` in the result of `getAttendance`: the three properties
read from the lookup result. -/
structure StudentSummary where
  name : JsVal
  email : JsVal
  nfcUid : JsVal

/-- Object returned by `getAttendance`; `student` is `none` for `null`. -/
structure AttendanceView where
  did : String
  student : Option StudentSummary
  records : List RecordView
  totalSessions : Nat
  attendancePercentage : Int

/-- Method `Array.prototype.map` with a callback that may throw: the first exception
aborts the traversal. -/
def mapM_except {α β : Type} (f : α → Except JsError β) : List α → Except JsError (List β)
  | [] => .ok []
  | a :: rest =>
    match f a with
    | .error e => .error e
    | .ok b =>
      match mapM_except f rest with
      | .error e => .error e
      | .ok bs => .ok (b :: bs)

namespace AttendanceService

/-- Method `getAttendance` (lines 125-148). The properties `name`, `email` and `nfcUid`
are read from the lookup result itself. Any exception of the body is replaced
by `Failed to get attendance records`. -/
def getAttendance (students : List Student) (attendanceRecords : AttendanceStore)
    (did : String) : Except JsError AttendanceView :=
  let records := (attendanceRecords.get did).getD []
  let student := DIDService.getStudentByDID students did
  let mapped := mapM_except (fun (record : AttendanceRecord) =>
    match toISOString record.timestamp with
    | .error e => Except.error e
    | .ok date =>
      .ok { timestamp := record.timestamp, sessionId := record.sessionId,
            transactionHash := record.transactionHash, date := date : RecordView }) records
  match mapped with
  | .error _ => .error (.error "Failed to get attendance records")
  | .ok views =>
    .ok { did := did,
          student :=
            if student.truthy then
              some { name := student.toJs.prop "name", email := student.toJs.prop "email",
                     nfcUid := student.toJs.prop "nfcUid" }
            else none,
          records := views,
          totalSessions := records.length,
          attendancePercentage := calculateAttendancePercentage attendanceRecords did }

end AttendanceService

/-! ## credentialService.js -/

/-- The map `credentials`: DID to credential object. -/
abbrev CredentialStore := JsMap JsObject

/-- Method `String.prototype.split` on a one-character separator, on character
lists. -/
def splitChars (sep : Char) : List Char → List (List Char)
  | [] => [[]]
  | c :: cs =>
    if c = sep then [] :: splitChars sep cs
    else
      match splitChars sep cs with
      | [] => [[c]]
      | seg :: segs => (c :: seg) :: segs

/-- The expression `did.split(':').pop()`, the text after the last colon. -/
def lastSegment (did : String) : String :=
  String.mk ((splitChars ':' did.data).getLastD [])

/-- Values `createVerifiableCredential` reads from its environment:
`Date.now()`, `new Date().toISOString()` and the random signature. -/
structure IssueEnv where
  now : Int
  issuedAt : String
  signature : String
  deriving DecidableEq, Repr

/-- Object returned by `issueCertificate`. -/
structure IssueResult where
  success : Bool
  credential : JsObject
  message : String

/-- Values `CredentialService.initializeMockData` reads from its environment:
the three `new Date().toISOString()` texts, in evaluation order, and the random
signature. -/
structure SeedEnv where
  issuedAt : String
  completionDate : String
  created : String
  signature : String
  deriving DecidableEq, Repr

namespace CredentialService

/-- Method `initializeMockData` (lines 14-48): one credential, stored under
`did:iota:test:student1`. -/
def initializeMockData (env : SeedEnv) (credentials : CredentialStore) : CredentialStore :=
  let mockCredentials : List (String × JsObject) :=
    [ ("did:iota:test:student1",
        [ ("did", .str "did:iota:test:student1"),
          ("credentialId", .str "credential:attendance:student1:001"),
          ("type", .str "CertificateOfCompletion"),
          ("issuedAt", .str env.issuedAt),
          ("issuer", .str "did:iota:test:university"),
          ("subject", .obj
            [ ("did", .str "did:iota:test:student1"),
              ("name", .str "Alice Johnson"),
              ("email", .str "alice.johnson@university.edu") ]),
          ("claims", .obj
            [ ("courseName", .str "Blockchain Development"),
              ("attendancePercentage", .num 80),
              ("totalSessions", .num 8),
              ("requiredSessions", .num 10),
              ("completionDate", .str env.completionDate) ]),
          ("proof", .obj
            [ ("type", .str "Ed25519Signature2020"),
              ("created", .str env.created),
              ("verificationMethod", .str "did:iota:test:university#key-1"),
              ("proofPurpose", .str "assertionMethod"),
              ("signature", .str env.signature) ]),
          ("status", .str "valid") ]) ]
  mockCredentials.foldl (fun store credential => store.set credential.1 credential.2)
    credentials

end CredentialService

namespace CredentialService

/-- Method `createVerifiableCredential` (lines 121-158). The argument `student` is what
`issueCertificate` passes, the lookup result of `getStudentByDID`. -/
def createVerifiableCredential (env : IssueEnv) (did : String) (student : StudentLookup)
    (attendance : AttendanceView) : JsObject :=
  let credentialId := "credential:attendance:" ++ lastSegment did ++ ":" ++ toString env.now
  let issuedAt := env.issuedAt
  [ ("@context", .arr [ .str "https://www.w3.org/2018/credentials/v1",
                        .str "https://www.w3.org/2018/credentials/examples/v1" ]),
    ("id", .str credentialId),
    ("type", .arr [ .str "VerifiableCredential", .str "CertificateOfCompletion" ]),
    ("issuer", .obj [ ("id", .str "did:iota:test:university"),
                      ("name", .str "University Blockchain Program") ]),
    ("issuanceDate", .str issuedAt),
    ("credentialSubject", .obj
      [ ("id", .str did),
        ("name", student.toJs.prop "name"),
        ("email", student.toJs.prop "email"),
        ("courseName", .str "Blockchain Development with IOTA"),
        ("attendancePercentage", .num attendance.attendancePercentage),
        ("totalSessions", .num attendance.totalSessions),
        ("requiredSessions", .num 10),
        ("completionDate", .str issuedAt),
        ("programDescription",
          .str "Advanced course in blockchain development using IOTA technology stack") ]),
    ("proof", .obj
      [ ("type", .str "Ed25519Signature2020"),
        ("created", .str issuedAt),
        ("verificationMethod", .str "did:iota:test:university#key-1"),
        ("proofPurpose", .str "assertionMethod"),
        ("signature", .str env.signature) ]) ]

/-- Method `issueCertificate` (lines 78-118) on the student array, the record map and
the credential map. The first component is the credential map the call leaves
behind, whether it returns or throws; the `catch` of lines 114-117 rethrows
unchanged. A stored credential is an object, hence truthy. -/
def issueCertificate (env : IssueEnv) (students : List Student)
    (attendanceRecords : AttendanceStore) (credentials : CredentialStore) (did : String) :
    CredentialStore × Except JsError IssueResult :=
  let student := DIDService.getStudentByDID students did
  if !student.truthy then
    (credentials, .error (.error "Student not found"))
  else
    match credentials.get did with
    | some _ => (credentials, .error (.error "Certificate already issued"))
    | none =>
      match AttendanceService.getAttendancePercentage attendanceRecords did with
      | .error e => (credentials, .error e)
      | .ok attendancePercentage =>
        if attendancePercentage < 80 then
          (credentials,
            .error (.error "Insufficient attendance for certificate (minimum 80% required)"))
        else
          match AttendanceService.getAttendance students attendanceRecords did with
          | .error e => (credentials, .error e)
          | .ok attendance =>
            let credential := createVerifiableCredential env did student attendance
            let credentials := credentials.set did credential
            match DIDService.issueCertificate did with
            | .error e => (credentials, .error e)
            | .ok _ =>
              (credentials,
                .ok { success := true, credential := credential,
                      message := "Certificate issued successfully" })

end CredentialService

/-! ## Derived notions used in the statements -/

/-- The expression `attendanceRecords.get(did) || []`. -/
def recordsOf (attendanceRecords : AttendanceStore) (did : String) : List AttendanceRecord :=
  (attendanceRecords.get did).getD []

/-- Records of a list that fall in the day bucket `day`. -/
def recordsOnDay (records : List AttendanceRecord) (day : Int) : List AttendanceRecord :=
  records.filter (fun r => dayBucket r.timestamp = day)

/-- Pairwise distinct day buckets within one record list. -/
def DistinctDays (records : List AttendanceRecord) : Prop :=
  records.Pairwise (fun a b => dayBucket a.timestamp ≠ dayBucket b.timestamp)

/-- At most one record per (DID, day bucket) in the whole store. -/
def OnePerDay (attendanceRecords : AttendanceStore) : Prop :=
  ∀ did, DistinctDays (recordsOf attendanceRecords did)

/-- The error `markAttendanceByDID` throws on a second mark in one day. -/
def duplicateForDay : JsError := .error "Attendance already marked for today"

/-- The error thrown by the call of `didService.updateAttendanceCount`. -/
def updateAttendanceCountMissing : JsError :=
  .typeError "didService.updateAttendanceCount is not a function"

/-- The record `markAttendanceByDID` builds from its environment. -/
def MarkEnv.newRecord (env : MarkEnv) : AttendanceRecord :=
  { timestamp := env.now, sessionId := env.sessionId,
    transactionHash := some env.transactionHash }

/-- A clock whose successive reads never decrease. -/
def ClockMonotone (clock : Nat → Int) : Prop := ∀ i j, i ≤ j → clock i ≤ clock j


/-- The element `{ ...record, date }` that `getAttendance` builds from a record
with a valid time value. -/
def AttendanceRecord.view (r : AttendanceRecord) : RecordView :=
  { timestamp := r.timestamp, sessionId := r.sessionId,
    transactionHash := r.transactionHash, date := { ms := r.timestamp } }

/-- Every timestamp of the list is a time value a `Date` can hold. -/
def TimeValues (records : List AttendanceRecord) : Prop :=
  ∀ r ∈ records, isTimeValue r.timestamp = true

/-- Non-decreasing timestamp order of a record list. -/
def SortedByTime (records : List AttendanceRecord) : Prop :=
  records.Pairwise (fun a b => a.timestamp ≤ b.timestamp)

/-- Store left behind by a sequence of `markAttendanceByDID` calls, each with
its own environment and DID. -/
def AttendanceService.markAll (students : List Student) :
    AttendanceStore → List (MarkEnv × String) → AttendanceStore
  | store, [] => store
  | store, (env, did) :: rest =>
    markAll students (AttendanceService.markAttendanceByDID env students store did).1 rest

/-- The clock never runs backwards along a sequence of calls: each call reads a
current time no earlier than every timestamp stored when it starts. -/
def ClockNeverBackwards (students : List Student) :
    AttendanceStore → List (MarkEnv × String) → Prop
  | _, [] => True
  | store, (env, did) :: rest =>
    (∀ entry ∈ store, ∀ r ∈ entry.2, r.timestamp ≤ env.now)
    ∧ ClockNeverBackwards students
        (AttendanceService.markAttendanceByDID env students store did).1 rest

/-! ## Sample data -/

/-- A clock that reads 1700000000000 ms at every read. -/
def sampleClock : Nat → Int := fun _ => 1700000000000

/-- The seeded attendance store when every read of the clock gives
1700000000000 ms. -/
def sampleSeed : AttendanceStore := AttendanceService.initializeMockData sampleClock []

/-- An environment whose clock reads `1700000000000 + 86400000 * k` ms. -/
def sampleEnv (k : Nat) : MarkEnv :=
  { now := 1700000000000 + 86400000 * k, sessionId := 7, transactionHash := "ab" }

/-- Six marks of `did:iota:test:student3` on six consecutive days. -/
def sixMarks : List (MarkEnv × String) :=
  [ (sampleEnv 0, "did:iota:test:student3"), (sampleEnv 1, "did:iota:test:student3"),
    (sampleEnv 2, "did:iota:test:student3"), (sampleEnv 3, "did:iota:test:student3"),
    (sampleEnv 4, "did:iota:test:student3"), (sampleEnv 5, "did:iota:test:student3") ]

/-- A store in which Alice has eight records on eight consecutive days. -/
def sampleEight : AttendanceStore :=
  [ ("did:iota:alice123",
      (List.range 8).map (fun (k : Nat) =>
        { timestamp := 1700000000000 + 86400000 * Int.ofNat k, sessionId := k + 1,
          transactionHash := none })) ]

/-- Every record list of the store is in non-decreasing timestamp order. -/
def SortedStore (attendanceRecords : AttendanceStore) : Prop :=
  ∀ did, SortedByTime (recordsOf attendanceRecords did)

/-- A call environment of `issueCertificate` for the examples. -/
def sampleIssueEnv (k : Nat) : IssueEnv :=
  { now := 1700000000000 + 1000 * Int.ofNat k, issuedAt := "2023-11-14T22:13:20.000Z",
    signature := "00ff" }

/-- A seeding environment of the credential store for the examples. -/
def sampleSeedEnv : SeedEnv :=
  { issuedAt := "2023-11-14T22:13:20.000Z", completionDate := "2023-11-14T22:13:20.000Z",
    created := "2023-11-14T22:13:20.000Z", signature := "00ff" }

/-! ## credentialService.js: verification and revocation -/

/-- Values `null` and `undefined`, on which a property read throws. -/
def JsVal.isNullish : JsVal → Bool
  | .undefined => true
  | .null => true
  | _ => false

/-- Property read `v.name` on a value that is neither `null` nor `undefined`,
for a name that is no built-in member (`id`, `type`, `issuer`,
`credentialSubject`, `proof`, `signature`): the own property of an object,
`undefined` on a primitive or an array. -/
def JsVal.prop : JsVal → String → JsVal
  | .obj props, name => JsObject.prop props name
  | _, _ => .undefined

/-- Property read `v.name`: a `TypeError` on `null` and `undefined`. -/
def JsVal.getProp (v : JsVal) (name : String) : Except JsError JsVal :=
  match v with
  | .undefined => .error (.typeError "Cannot read properties of undefined")
  | .null => .error (.typeError "Cannot read properties of null")
  | w => .ok (w.prop name)

/-- Strict equality `===`. Primitives are compared by value. Objects and arrays
are compared by reference: a stored `id` is a string or absent, so no stored
value is the same allocation as a presented one. -/
def JsVal.strictEq : JsVal → JsVal → Bool
  | .undefined, .undefined => true
  | .null, .null => true
  | .bool a, .bool b => a == b
  | .num a, .num b => a == b
  | .str a, .str b => a == b
  | _, _ => false

/-- Expression `!v.name`, which throws when the read throws. -/
def JsVal.notProp (v : JsVal) (name : String) : Except JsError Bool :=
  match v.getProp name with
  | .error e => .error e
  | .ok x => .ok (!x.truthy)

/-- Short-circuit `a || b` of two tests that may throw: `b` is evaluated only
when `a` is false. -/
def orElseM (a b : Except JsError Bool) : Except JsError Bool :=
  match a with
  | .error e => .error e
  | .ok true => .ok true
  | .ok false => b

/-- Method `Map.prototype.get` with an arbitrary value as key: the keys of the
map are strings, so only an equal string finds an entry. -/
def JsMap.getByValue {α : Type} (m : JsMap α) : JsVal → Option α
  | .str key => m.get key
  | _ => none

/-- Property write `o.name = value`: overwrites in place, or appends. -/
def JsObject.setProp (o : JsObject) (name : String) (value : JsVal) : JsObject :=
  JsMap.set o name value

/-- Object returned by `verifyCredential`: `{ valid, error }` or
`{ valid, message }`. -/
structure VerifyResult where
  valid : Bool
  error : Option String
  message : Option String
  deriving DecidableEq, Repr

/-- Object returned by `revokeCredential`. -/
structure RevokeResult where
  success : Bool
  credential : JsObject
  message : String

namespace CredentialService

/-- Body of the `try` block of `verifyCredential` (lines 166-180). -/
def verifyCredentialBody (credentials : CredentialStore) (credential : JsVal) :
    Except JsError VerifyResult :=
  match orElseM (credential.notProp "id")
      (orElseM (credential.notProp "type")
        (orElseM (credential.notProp "issuer") (credential.notProp "credentialSubject"))) with
  | .error e => .error e
  | .ok true =>
    .ok { valid := false, error := some "Invalid credential structure", message := none }
  | .ok false =>
    match orElseM (credential.notProp "proof")
        (match credential.getProp "proof" with
         | .error e => .error e
         | .ok proof => proof.notProp "signature") with
    | .error e => .error e
    | .ok true => .ok { valid := false, error := some "Missing proof", message := none }
    | .ok false =>
      match credential.getProp "credentialSubject" with
      | .error e => .error e
      | .ok credentialSubject =>
        match credentialSubject.getProp "id" with
        | .error e => .error e
        | .ok subjectId =>
          match credential.getProp "id" with
          | .error e => .error e
          | .ok id =>
            let notStored : Bool :=
              match credentials.getByValue subjectId with
              | none => true
              | some storedCredential => !(storedCredential.prop "id").strictEq id
            if notStored then
              .ok { valid := false, error := some "Credential not found in registry",
                    message := none }
            else
              .ok { valid := true, error := none,
                    message := some "Credential verified successfully" }

/-- Method `verifyCredential` (lines 161-185): the `catch` turns any exception
of the body into `Verification failed`. The credential map is only read. -/
def verifyCredential (credentials : CredentialStore) (credential : JsVal) : VerifyResult :=
  match verifyCredentialBody credentials credential with
  | .ok result => result
  | .error _ => { valid := false, error := some "Verification failed", message := none }

/-- Method `revokeCredential` (lines 188-208); `revokedAt` is the text of
`new Date().toISOString()` at the call. The first component is the credential
map the call leaves behind. -/
def revokeCredential (revokedAt : String) (credentials : CredentialStore) (did : String) :
    CredentialStore × Except JsError RevokeResult :=
  match credentials.get did with
  | none => (credentials, .error (.error "Credential not found"))
  | some credential =>
    let credential := credential.setProp "status" (.str "revoked")
    let credential := credential.setProp "revokedAt" (.str revokedAt)
    let credentials := credentials.set did credential
    (credentials,
      .ok { success := true, credential := credential,
            message := "Credential revoked successfully" })

end CredentialService

/-! ## The checks of verification, as the specification words them -/

/-- Check 1: `id`, `type`, `issuer` and `credentialSubject` are all truthy. -/
def structureOk (credential : JsVal) : Bool :=
  (credential.prop "id").truthy && (credential.prop "type").truthy
    && (credential.prop "issuer").truthy && (credential.prop "credentialSubject").truthy

/-- Check 2: `proof` is truthy and has a truthy `signature`. -/
def proofOk (credential : JsVal) : Bool :=
  (credential.prop "proof").truthy && ((credential.prop "proof").prop "signature").truthy

/-- Check 3: the store holds, under `credentialSubject.id`, a credential whose
`id` is strictly equal to the presented `id`. -/
def inRegistry (credentials : CredentialStore) (credential : JsVal) : Bool :=
  match credentials.getByValue ((credential.prop "credentialSubject").prop "id") with
  | none => false
  | some storedCredential => (storedCredential.prop "id").strictEq (credential.prop "id")

/-- The outcome of verification told as a cascade: `Verification failed` on
`null` and `undefined`, then the reason of the first failing check, then
success. -/
def verifyChecks (credentials : CredentialStore) (credential : JsVal) : VerifyResult :=
  if credential.isNullish then
    { valid := false, error := some "Verification failed", message := none }
  else if !structureOk credential then
    { valid := false, error := some "Invalid credential structure", message := none }
  else if !proofOk credential then
    { valid := false, error := some "Missing proof", message := none }
  else if !inRegistry credentials credential then
    { valid := false, error := some "Credential not found in registry", message := none }
  else
    { valid := true, error := none, message := some "Credential verified successfully" }

/-! ## Sample data for credentials -/

/-- What `getAttendance` returns for Alice on `sampleEight`. -/
def sampleView : AttendanceView :=
  { did := "did:iota:alice123",
    student := some { name := .undefined, email := .undefined, nfcUid := .undefined },
    records := (recordsOf sampleEight "did:iota:alice123").map AttendanceRecord.view,
    totalSessions := 8,
    attendancePercentage := 80 }

/-- The credential `issueCertificate` builds for Alice from `sampleView`. -/
def sampleCredentialObject : JsObject :=
  CredentialService.createVerifiableCredential (sampleIssueEnv 0) "did:iota:alice123"
    (DIDService.getStudentByDID DIDService.students "did:iota:alice123") sampleView

/-- The credential store after `issueCertificate` was called for Alice, who has
eight records, on the seeded credential store (see `issueCertificate_sample`). -/
def sampleIssued : CredentialStore :=
  JsMap.set (CredentialService.initializeMockData sampleSeedEnv []) "did:iota:alice123"
    sampleCredentialObject

/-- The credential stored for Alice in `sampleIssued`, as a presented value. -/
def sampleCredential : JsVal := .obj sampleCredentialObject

/-- A credential with the `id` and subject DID of `sampleCredential`, another
signature and another attendance claim. -/
def sampleForged : JsVal :=
  .obj [ ("id", sampleCredential.prop "id"),
         ("type", .str "CertificateOfCompletion"),
         ("issuer", .str "did:iota:test:university"),
         ("credentialSubject", .obj [ ("id", .str "did:iota:alice123"),
                                      ("attendancePercentage", .num 100) ]),
         ("proof", .obj [ ("signature", .str "forged") ]) ]

/-! ## didService.js: registration, update and deletion -/

/-- Values `createDID` reads from its environment: the hexadecimal text of
`crypto.randomBytes(16)`, the base64 text of `crypto.randomBytes(32)`, the
result of `uuidv4()` and the date part of `new Date().toISOString()`. -/
structure CreateEnv where
  didBytes : String
  publicKey : String
  uuid : String
  today : String
  deriving DecidableEq, Repr

/-- Argument `studentData` of `createDID`, as `POST /api/students` builds it. -/
structure StudentData where
  name : String
  email : String
  nfcUid : String
  department : String
  deriving DecidableEq, Repr

/-- State of `didService.js`: the `students` array and the map `dids` of the
`MockIotaIdentity` instance, which is empty when the module is loaded. -/
structure DidState where
  students : List Student
  dids : JsMap DidDocument

/-- Object returned by `createDID`: `{ success, student, did, document }`, or
`{ success, error }` from its `catch`. -/
structure CreateResult where
  success : Bool
  student : Option Student
  did : Option String
  document : Option DidDocument
  error : Option String
  deriving DecidableEq, Repr

/-- Argument `updates` of `updateStudent`: the properties it carries. -/
structure StudentUpdates where
  id : Option String := none
  name : Option String := none
  email : Option String := none
  did : Option String := none
  nfcUid : Option String := none
  department : Option String := none
  enrollmentDate : Option String := none
  didDocument : Option DidDocument := none
  deriving DecidableEq, Repr

/-- Object spread `{ ...student, ...updates }`. -/
def Student.merge (student : Student) (updates : StudentUpdates) : Student :=
  { id := updates.id.getD student.id,
    name := updates.name.getD student.name,
    email := updates.email.getD student.email,
    did := updates.did.getD student.did,
    nfcUid := updates.nfcUid.getD student.nfcUid,
    department := updates.department.getD student.department,
    enrollmentDate := updates.enrollmentDate.getD student.enrollmentDate,
    didDocument :=
      match updates.didDocument with
      | some document => some document
      | none => student.didDocument }

namespace MockIotaIdentity

/-- Method `createDid` (lines 11-31): the DID, its document, and the map `dids`
with the document stored under the DID. -/
def createDid (didBytes publicKey : String) (dids : JsMap DidDocument) :
    JsMap DidDocument × String × DidDocument :=
  let did := "did:iota:" ++ didBytes
  let document : DidDocument :=
    { id := did,
      controller := did,
      verificationMethod :=
        [ { id := did ++ "#key-1", type := "Ed25519VerificationKey2018", controller := did,
            publicKeyBase58 := publicKey } ],
      authentication := [did ++ "#key-1"],
      assertionMethod := [did ++ "#key-1"],
      keyAgreement := [did ++ "#key-1"],
      capabilityInvocation := [did ++ "#key-1"],
      capabilityDelegation := [did ++ "#key-1"] }
  (dids.set did document, did, document)

end MockIotaIdentity

namespace DIDService

/-- The state of the module once it is loaded. -/
def initialState : DidState := { students := students, dids := [] }

/-- Method `createDID` (lines 92-122). No statement of the `try` block throws,
so the `catch` is never entered: the student is always pushed. -/
def createDID (env : CreateEnv) (studentData : StudentData) (state : DidState) :
    DidState × CreateResult :=
  let created := MockIotaIdentity.createDid env.didBytes env.publicKey state.dids
  let did := created.2.1
  let document := created.2.2
  let student : Student :=
    { id := env.uuid,
      name := studentData.name,
      email := studentData.email,
      did := did,
      nfcUid := studentData.nfcUid,
      department := studentData.department,
      enrollmentDate := env.today,
      didDocument := some document }
  ({ students := state.students ++ [student], dids := created.1 },
    { success := true, student := some student, did := some did, document := some document,
      error := none })

/-- Method `getStudentByNFCUid` (lines 165-186): first student with the given
NFC UID. -/
def getStudentByNFCUid (students : List Student) (nfcUid : String) : StudentLookup :=
  match students.find? (fun s => s.nfcUid = nfcUid) with
  | none => { success := false, error := some "Student not found", student := none }
  | some student =>
    { success := true, error := none,
      student := some
        { id := student.id, name := student.name, email := student.email,
          did := student.did, nfcUid := student.nfcUid,
          department := student.department,
          enrollmentDate := student.enrollmentDate } }

/-- Method `updateStudent` (lines 215-233): the array it leaves behind and the
object it returns. The index `findIndex` yields lies within the array, so the
read `this.students[studentIndex]` always finds a student. -/
def updateStudent (students : List Student) (studentId : String) (updates : StudentUpdates) :
    List Student × StudentLookup :=
  match students.findIdx? (fun s => s.id = studentId) with
  | none => (students, { success := false, error := some "Student not found", student := none })
  | some studentIndex =>
    match students.get? studentIndex with
    | none => (students, { success := false, error := some "Student not found", student := none })
    | some student =>
      let merged := student.merge updates
      (students.set studentIndex merged,
        { success := true, error := none, student := some merged })

/-- Method `deleteStudent` (lines 236-250): `splice` removes the first student
with the given id. -/
def deleteStudent (students : List Student) (studentId : String) :
    List Student × StudentLookup :=
  match students.findIdx? (fun s => s.id = studentId) with
  | none => (students, { success := false, error := some "Student not found", student := none })
  | some studentIndex =>
    (students.eraseIdx studentIndex,
      { success := true, error := none, student := students.get? studentIndex })

end DIDService

/-- A call of a method of the exported `DIDService` instance. -/
inductive DidOp where
  | createDID (env : CreateEnv) (studentData : StudentData)
  | getAllStudents
  | getStudentByDID (did : String)
  | getStudentByNFCUid (nfcUid : String)
  | verifyDID (did : String)
  | getDIDDocument (did : String)
  | updateStudent (studentId : String) (updates : StudentUpdates)
  | deleteStudent (studentId : String)

/-- State the call leaves behind. The methods `getAllStudents`,
`getStudentByDID`, `getStudentByNFCUid`, `verifyDID` and `getDIDDocument` only
read. -/
def DidOp.apply : DidOp → DidState → DidState
  | .createDID env studentData, state => (DIDService.createDID env studentData state).1
  | .updateStudent studentId updates, state =>
    { state with students := (DIDService.updateStudent state.students studentId updates).1 }
  | .deleteStudent studentId, state =>
    { state with students := (DIDService.deleteStudent state.students studentId).1 }
  | _, state => state

/-- State left behind by a sequence of calls. -/
def DidOp.run (ops : List DidOp) (state : DidState) : DidState :=
  ops.foldl (fun s op => op.apply s) state

/-- Calls that cannot unregister a DID: every call but `deleteStudent` and an
`updateStudent` whose updates carry a `did`. -/
def DidOp.keepsIdentities : DidOp → Bool
  | .deleteStudent _ => false
  | .updateStudent _ updates => updates.did.isNone
  | _ => true

/-- A call environment of `createDID` for the examples. -/
def sampleCreateEnv : CreateEnv :=
  { didBytes := "00112233445566778899aabbccddeeff",
    publicKey := "AAECAwQFBgcICQoLDA0ODxAREhMUFRYXGBkaGxwdHh8=",
    uuid := "3f2b8c1e-5d4a-4e6f-9a7b-0c1d2e3f4a5b", today := "2023-11-14" }

/-- A registration whose NFC UID is the one of the seeded student Alice. -/
def sampleDuplicate : StudentData :=
  { name := "Dave Miller", email := "dave@university.edu", nfcUid := "A1B2C3D4",
    department := "Chemistry" }

/-! ## credentialService.js: statistics and eligibility -/

/-- Optional chaining `v?.name`: `undefined` when `v` is `null` or `undefined`. -/
def JsVal.optProp (v : JsVal) (name : String) : JsVal :=
  if v.isNullish then .undefined else v.prop name

/-- Expression `v || 0` used as a summand. The values that occur are
a number written by `createVerifiableCredential`, or `undefined`. -/
def JsVal.orZero : JsVal → Int
  | .num n => n
  | _ => 0

/-- Object returned by `getCredentialStats`. -/
structure CredentialStats where
  totalCredentials : Nat
  validCredentials : Nat
  revokedCredentials : Nat
  averageAttendancePercentage : Int
  lastUpdated : String
  deriving DecidableEq, Repr

/-- Property `student` in the result of `checkEligibility`: `name` and `email`
read from the lookup result. -/
structure NameEmail where
  name : JsVal
  email : JsVal

/-- Object returned by `checkEligibility`. -/
structure EligibilityResult where
  did : String
  student : NameEmail
  attendancePercentage : Int
  hasCertificate : Bool
  eligible : Bool
  requiredAttendance : Nat
  sessionsNeeded : Int

namespace CredentialService

/-- Method `getCredentialStats` (lines 234-258); `lastUpdated` is the text of
`new Date().toISOString()`. No statement of the `try` block throws. -/
def getCredentialStats (lastUpdated : String) (credentials : CredentialStore) :
    Except JsError CredentialStats :=
  let allCredentials : List JsObject := credentials.map Prod.snd
  let totalCredentials := allCredentials.length
  let validCredentials :=
    (allCredentials.filter (fun c => (c.prop "status").strictEq (.str "valid"))).length
  let revokedCredentials :=
    (allCredentials.filter (fun c => (c.prop "status").strictEq (.str "revoked"))).length
  let totalAttendancePercentage : Int :=
    allCredentials.foldl
      (fun sum c => sum + ((c.prop "credentialSubject").optProp "attendancePercentage").orZero)
      0
  let averageAttendancePercentage : Int :=
    if totalCredentials > 0 then
      jsRound ((totalAttendancePercentage : ℚ) / (totalCredentials : ℚ))
    else 0
  .ok { totalCredentials := totalCredentials,
        validCredentials := validCredentials,
        revokedCredentials := revokedCredentials,
        averageAttendancePercentage := averageAttendancePercentage,
        lastUpdated := lastUpdated }

/-- Method `checkEligibility` (lines 299-325). Any exception of the body is
replaced by `Failed to check eligibility`; the properties of the result are
evaluated in order, `sessionsNeeded` with its call of `getAttendance` last. -/
def checkEligibility (students : List Student) (attendanceRecords : AttendanceStore)
    (credentials : CredentialStore) (did : String) : Except JsError EligibilityResult :=
  let student := DIDService.getStudentByDID students did
  if !student.truthy then
    .error (.error "Failed to check eligibility")
  else
    match AttendanceService.getAttendancePercentage attendanceRecords did with
    | .error _ => .error (.error "Failed to check eligibility")
    | .ok attendancePercentage =>
      let existingCredential := credentials.get did
      match AttendanceService.getAttendance students attendanceRecords did with
      | .error _ => .error (.error "Failed to check eligibility")
      | .ok attendance =>
        .ok { did := did,
              student := { name := student.toJs.prop "name", email := student.toJs.prop "email" },
              attendancePercentage := attendancePercentage,
              hasCertificate := existingCredential.isSome,
              eligible := decide (attendancePercentage ≥ 80) && !existingCredential.isSome,
              requiredAttendance := 80,
              sessionsNeeded := max 0 (8 - (attendance.totalSessions : Int)) }

/-- A call of `verifyCredential` with the credential map it leaves behind: the
method reads the map with `get` only and writes nothing. -/
def verifyCredentialCall (credentials : CredentialStore) (credential : JsVal) :
    CredentialStore × VerifyResult :=
  (credentials, verifyCredential credentials credential)

end CredentialService

/-- Two DIDs that differ and share the text after the last colon. -/
def sampleTwinDids : String × String := ("did:iota:test:student1", "did:iota:prod:student1")

/-! ## attendanceService.js: marking by NFC and system statistics -/

/-- Iteration `for (const x of v)`: the elements of an array, the characters of
a string, and a `TypeError` on every value that is not iterable, a plain object
included. -/
def JsVal.iterate : JsVal → Except JsError (List JsVal)
  | .arr items => .ok items
  | .str s => .ok (s.data.map (fun c => JsVal.str (String.singleton c)))
  | _ => .error (.typeError "value is not iterable")

/-- Comparison `v > 0` for the values that occur: a number, or `undefined`
(which compares as `NaN`, hence false). -/
def JsVal.gtZero : JsVal → Bool
  | .num n => decide (n > 0)
  | _ => false

/-- Numeric value of a number; only read where `gtZero` holds. -/
def JsVal.toRat : JsVal → ℚ
  | .num n => n
  | _ => 0

/-- Object `{ success, students }` returned by `getAllStudents`. -/
structure AllStudents where
  success : Bool
  students : List Student
  deriving DecidableEq, Repr

/-- The result of `getAllStudents` as a JavaScript value: a plain object with
the properties `success` and `students`. -/
def AllStudents.toJs (r : AllStudents) : JsObject :=
  [ ("success", .bool r.success),
    ("students", .arr (r.students.map (fun s => JsVal.obj s.toJs))) ]

/-- Object returned by `getSystemStats`. -/
structure SystemStats where
  totalStudents : JsVal
  totalAttendance : Nat
  averageAttendance : ℚ
  studentsWithCertificates : Nat
  overallAttendancePercentage : Int
  totalSessions : Nat
  lastUpdated : String

namespace DIDService

/-- Method `getAllStudents` (lines 125-138). -/
def getAllStudents (students : List Student) : AllStudents :=
  { success := true,
    students := students.map (fun student =>
      { id := student.id, name := student.name, email := student.email,
        did := student.did, nfcUid := student.nfcUid,
        department := student.department,
        enrollmentDate := student.enrollmentDate }) }

/-- Call `didService.getStudentByNFC(nfcUid)`. The class `DIDService` has the
member `getStudentByNFCUid` and no member `getStudentByNFC` (that name is a
method of `NFCService`), so the call expression throws a `TypeError`. The result
type is the student object the caller reads `did` from. -/
def getStudentByNFC (_nfcUid : String) : Except JsError Student :=
  .error (.typeError "didService.getStudentByNFC is not a function")

end DIDService

namespace AttendanceService

/-- Method `markAttendanceByNFC` (lines 50-63); the `catch` rethrows
unchanged. -/
def markAttendanceByNFC (env : MarkEnv) (students : List Student)
    (attendanceRecords : AttendanceStore) (nfcUid : String) :
    AttendanceStore × Except JsError MarkResult :=
  match DIDService.getStudentByNFC nfcUid with
  | .error e => (attendanceRecords, .error e)
  | .ok student =>
    if !(JsVal.obj student.toJs).truthy then
      (attendanceRecords, .error (.error "Student not found for NFC UID"))
    else
      markAttendanceByDID env students attendanceRecords student.did

/-- Method `getSystemStats` (lines 191-224); `lastUpdated` is the text of
`new Date().toISOString()`. The value `allStudents` is the object that
`getAllStudents` returns: its `length` is read as a property and the loop
iterates over it. Any exception of the body is replaced by
`Failed to get system statistics`. -/
def getSystemStats (lastUpdated : String) (students : List Student)
    (attendanceRecords : AttendanceStore) : Except JsError SystemStats :=
  let allStudents : JsVal := .obj (DIDService.getAllStudents students).toJs
  let totalStudents := allStudents.prop "length"
  let body : Except JsError SystemStats :=
    match allStudents.iterate with
    | .error e => .error e
    | .ok items =>
      let totalAttendance : Nat :=
        items.foldl (fun total student =>
          total + ((attendanceRecords.getByValue (student.prop "did")).getD []).length) 0
      let studentsWithCertificates : Nat :=
        (items.filter (fun student => (student.prop "certificateIssued").truthy)).length
      let averageAttendance : ℚ :=
        if totalStudents.gtZero then (totalAttendance : ℚ) / totalStudents.toRat else 0
      let overallAttendancePercentage : Int :=
        if totalStudents.gtZero then
          jsRound (((totalAttendance : ℚ) / (totalStudents.toRat * 10)) * 100)
        else 0
      .ok { totalStudents := totalStudents,
            totalAttendance := totalAttendance,
            averageAttendance := (jsRound (averageAttendance * 100) : ℚ) / 100,
            studentsWithCertificates := studentsWithCertificates,
            overallAttendancePercentage := overallAttendancePercentage,
            totalSessions := 10,
            lastUpdated := lastUpdated }
  match body with
  | .error _ => .error (.error "Failed to get system statistics")
  | .ok stats => .ok stats

end AttendanceService

/-- A store in which Alice has seven records on seven consecutive days. -/
def sampleSeven : AttendanceStore :=
  [ ("did:iota:alice123",
      (List.range 7).map (fun (k : Nat) =>
        { timestamp := 1700000000000 + 86400000 * Int.ofNat k, sessionId := k + 1,
          transactionHash := none })) ]

/-! ## nfcService.js -/

/-- Value of the map `nfcMappings`. The seeded entries have no `registeredAt`;
`lastUpdated` is set by `updateNFCStatus` only. -/
structure NfcData where
  uid : String
  did : String
  cardType : String
  lastSeen : String
  status : String
  registeredAt : Option String := none
  lastUpdated : Option String := none
  deriving DecidableEq, Repr

/-- The map `nfcMappings`: NFC UID to card data. -/
abbrev NfcMappings := JsMap NfcData

/-- Method `Map.prototype.has`. -/
def JsMap.has {α : Type} (m : JsMap α) (key : String) : Bool := (m.get key).isSome

/-- Range `lo-hi` of a character class. -/
structure CharRange where
  lo : Char
  hi : Char
  deriving DecidableEq, Repr

/-- Canonical form of a character under the flag `i` (without the flag `u`), as
a code: a lower-case ASCII letter becomes its upper-case letter, every other
ASCII character is kept, and a character outside ASCII never becomes an ASCII
character (it is kept here). -/
def canonicalCode (c : Char) : Nat :=
  let n := c.toNat
  if 97 ≤ n ∧ n ≤ 122 then n - 32 else n

/-- Case-insensitive match of one character against a class whose members are
digits and upper-case letters, which are their own canonical forms: the
canonical form of the character lies in one of the ranges. -/
def classMatchesI (ranges : List CharRange) (c : Char) : Bool :=
  ranges.any (fun r =>
    decide (r.lo.toNat ≤ canonicalCode c) && decide (canonicalCode c ≤ r.hi.toNat))

/-- Test of the pattern `^C{min,max}$` on a text: for some repetition count `k`
between `min` and `max` the first `k` characters match the class `C` and the
text ends there. A character beyond the basic plane is two code units for the
pattern, neither of which is in an ASCII class, so it fails the class either
way. -/
def testAnchoredRepeat (cls : Char → Bool) (min max : Nat) (text : List Char) : Bool :=
  (List.range (max + 1)).any (fun k =>
    decide (min ≤ k) && decide (k ≤ text.length) && (text.take k).all cls
      && decide (text.drop k = []))

/-- Values `NFCService.initializeMockData` reads from its environment: the three
texts of `new Date().toISOString()`. -/
structure NfcSeedEnv where
  lastSeen1 : String
  lastSeen2 : String
  lastSeen3 : String
  deriving DecidableEq, Repr

/-- Values `registerNFC` reads from its environment: the two texts of
`new Date().toISOString()`. -/
structure RegisterEnv where
  lastSeen : String
  registeredAt : String
  deriving DecidableEq, Repr

/-- Object returned by `registerNFC`. -/
structure RegisterResult where
  success : Bool
  nfcData : NfcData
  student : StudentLookup
  deriving DecidableEq, Repr

namespace NFCService

/-- Method `initializeMockData` (lines 13-41) of `nfcService.js`. -/
def initializeMockData (env : NfcSeedEnv) (nfcMappings : NfcMappings) : NfcMappings :=
  let mockNFCData : List NfcData :=
    [ { uid := "04A1B2C3D4E5F6", did := "did:iota:test:student1",
        cardType := "MIFARE Classic", lastSeen := env.lastSeen1, status := "active" },
      { uid := "04B2C3D4E5F6A7", did := "did:iota:test:student2",
        cardType := "MIFARE Classic", lastSeen := env.lastSeen2, status := "active" },
      { uid := "04C3D4E5F6A7B8", did := "did:iota:test:student3",
        cardType := "MIFARE Classic", lastSeen := env.lastSeen3, status := "active" } ]
  mockNFCData.foldl (fun mappings nfc => mappings.set nfc.uid nfc) nfcMappings

/-- Method `validateNFCUID` (lines 133-137): the test of
`/^[0-9A-F]{8,16}$/i`. -/
def validateNFCUID (uid : String) : Bool :=
  testAnchoredRepeat (classMatchesI [⟨'0', '9'⟩, ⟨'A', 'F'⟩]) 8 16 uid.data

/-- Method `detectCardType` (lines 119-130). It is called on validated UIDs,
which are ASCII, so the length counts the same units as in the source. -/
def detectCardType (uid : String) : String :=
  if uid.length = 14 ∧ uid.startsWith "04" then "MIFARE Classic"
  else if uid.length = 8 then "MIFARE Ultralight"
  else if uid.length = 16 then "MIFARE DESFire"
  else "Unknown"

/-- Method `registerNFC` (lines 77-116); the `catch` rethrows unchanged. The
first component is the map `nfcMappings` the call leaves behind. -/
def registerNFC (env : RegisterEnv) (students : List Student) (nfcMappings : NfcMappings)
    (nfcUid did : String) : NfcMappings × Except JsError RegisterResult :=
  if !validateNFCUID nfcUid then
    (nfcMappings, .error (.error "Invalid NFC UID format"))
  else if nfcMappings.has nfcUid then
    (nfcMappings, .error (.error "NFC UID already registered"))
  else
    let student := DIDService.getStudentByDID students did
    if !student.truthy then
      (nfcMappings, .error (.error "Student not found"))
    else
      let nfcData : NfcData :=
        { uid := nfcUid, did := did, cardType := detectCardType nfcUid,
          lastSeen := env.lastSeen, status := "active",
          registeredAt := some env.registeredAt }
      (nfcMappings.set nfcUid nfcData,
        .ok { success := true, nfcData := nfcData, student := student })

end NFCService

/-- The characters `0-9`, `a-f` and `A-F`. -/
def isHexChar (c : Char) : Prop :=
  ('0'.toNat ≤ c.toNat ∧ c.toNat ≤ '9'.toNat)
  ∨ ('a'.toNat ≤ c.toNat ∧ c.toNat ≤ 'f'.toNat)
  ∨ ('A'.toNat ≤ c.toNat ∧ c.toNat ≤ 'F'.toNat)

/-- Every key of the map is a UID that `validateNFCUID` accepts. -/
def KeysValid (nfcMappings : NfcMappings) : Prop :=
  ∀ uid ∈ nfcMappings.keys, NFCService.validateNFCUID uid = true

/-- A seeding environment of the NFC mappings for the examples. -/
def sampleNfcSeedEnv : NfcSeedEnv :=
  { lastSeen1 := "2023-11-14T22:13:20.000Z", lastSeen2 := "2023-11-14T22:13:20.000Z",
    lastSeen3 := "2023-11-14T22:13:20.000Z" }

/-- A call environment of `registerNFC` for the examples. -/
def sampleRegisterEnv : RegisterEnv :=
  { lastSeen := "2023-11-15T08:00:00.000Z", registeredAt := "2023-11-15T08:00:00.000Z" }

/-- A clock that steps back by one millisecond, across midnight, before the
last read of the seeding: reads 0 to 10 give 1700006400000 ms, the start of day
19676, and read 11 gives 1700006399999 ms. -/
def backwardsClock : Nat → Int := fun i => if i = 11 then 1700006399999 else 1700006400000
/-! ## Lemmas on maps -/

theorem JsMap.get_set_self {α : Type} (m : JsMap α) (key : String) (value : α) :
    (m.set key value).get key = some value := by
  induction m with
  | nil => simp [JsMap.set, JsMap.get]
  | cons p rest ih =>
    obtain ⟨k, v⟩ := p
    by_cases h : k = key
    · simp [JsMap.set, JsMap.get, h]
    · simp [JsMap.set, JsMap.get, h, ih]

theorem JsMap.get_set_of_ne {α : Type} (m : JsMap α) (key other : String) (value : α)
    (hne : other ≠ key) : (m.set key value).get other = m.get other := by
  induction m with
  | nil =>
    have : ¬ key = other := fun h => hne h.symm
    simp [JsMap.set, JsMap.get, this]
  | cons p rest ih =>
    obtain ⟨k, v⟩ := p
    by_cases h : k = key
    · subst h
      have : ¬ k = other := fun h => hne h.symm
      simp [JsMap.set, JsMap.get, this]
    · by_cases h2 : k = other
      · subst h2
        simp [JsMap.set, JsMap.get, h]
      · simp [JsMap.set, JsMap.get, h, h2, ih]

theorem JsMap.keys_set_of_get_some {α : Type} (m : JsMap α) (key : String) (value old : α)
    (h : m.get key = some old) : (m.set key value).keys = m.keys := by
  induction m with
  | nil => simp [JsMap.get] at h
  | cons p rest ih =>
    obtain ⟨k, v⟩ := p
    by_cases hk : k = key
    · simp [JsMap.set, JsMap.keys, hk]
    · simp only [JsMap.get, hk, if_false] at h
      have := ih h
      simp only [JsMap.keys] at this
      simp [JsMap.set, JsMap.keys, hk, this]

theorem JsMap.keys_set_of_get_none {α : Type} (m : JsMap α) (key : String) (value : α)
    (h : m.get key = none) : (m.set key value).keys = m.keys ++ [key] := by
  induction m with
  | nil => simp [JsMap.set, JsMap.keys]
  | cons p rest ih =>
    obtain ⟨k, v⟩ := p
    by_cases hk : k = key
    · simp [JsMap.get, hk] at h
    · simp only [JsMap.get, hk, if_false] at h
      have := ih h
      simp only [JsMap.keys] at this
      simp [JsMap.set, JsMap.keys, hk, this]

theorem JsMap.not_mem_keys_of_get_none {α : Type} (m : JsMap α) (key : String)
    (h : m.get key = none) : key ∉ m.keys := by
  induction m with
  | nil => simp [JsMap.keys]
  | cons p rest ih =>
    obtain ⟨k, v⟩ := p
    by_cases hk : k = key
    · simp [JsMap.get, hk] at h
    · simp only [JsMap.get, hk, if_false] at h
      have := ih h
      simp only [JsMap.keys] at this
      simp only [JsMap.keys, List.map_cons, List.mem_cons, not_or]
      exact ⟨fun e => hk e.symm, this⟩

theorem JsMap.keys_nodup_set {α : Type} (m : JsMap α) (key : String) (value : α)
    (h : m.keys.Nodup) : (m.set key value).keys.Nodup := by
  cases hg : m.get key with
  | none =>
    rw [JsMap.keys_set_of_get_none m key value hg]
    have hnot := JsMap.not_mem_keys_of_get_none m key hg
    rw [List.nodup_append]
    refine ⟨h, List.nodup_singleton key, ?_⟩
    intro a ha hb
    simp only [List.mem_singleton] at hb
    subst hb
    exact hnot ha
  | some old =>
    rw [JsMap.keys_set_of_get_some m key value old hg]
    exact h

/-! ## Lemmas on lookup results -/

/-- A lookup result is an object, hence truthy: the test `!student` is false. -/
theorem StudentLookup.truthy_eq_true (l : StudentLookup) : l.truthy = true := rfl

/-- A lookup result has none of the properties `name`, `email`, `nfcUid`,
`certificateIssued`. -/
theorem StudentLookup.prop_undefined (l : StudentLookup) :
    l.toJs.prop "name" = .undefined ∧ l.toJs.prop "email" = .undefined
    ∧ l.toJs.prop "nfcUid" = .undefined ∧ l.toJs.prop "certificateIssued" = .undefined := by
  obtain ⟨success, error, student⟩ := l
  cases error <;> cases student <;>
    simp [StudentLookup.toJs, JsObject.prop, JsMap.get]

theorem StudentLookup.certificateIssued_eq_false (l : StudentLookup) :
    l.certificateIssued = false := by
  rw [StudentLookup.certificateIssued, (StudentLookup.prop_undefined l).2.2.2]
  rfl

/-! ## Lemmas on the attendance service -/

theorem dayBucket_eq_floor (t : Int) : dayBucket t = ⌊(t : ℚ) / 86400000⌋ := by
  have h := Rat.floor_intCast_div_natCast t 86400000
  rw [dayBucket, msPerDay]
  norm_num at h ⊢
  exact h.symm

theorem recordsOf_set_self (store : AttendanceStore) (did : String)
    (records : List AttendanceRecord) : recordsOf (store.set did records) did = records := by
  simp [recordsOf, JsMap.get_set_self]

theorem recordsOf_set_of_ne (store : AttendanceStore) (did other : String)
    (records : List AttendanceRecord) (hne : other ≠ did) :
    recordsOf (store.set did records) other = recordsOf store other := by
  simp [recordsOf, JsMap.get_set_of_ne _ _ _ _ hne]

/-- A mark on a day that already has a record throws and changes nothing. -/
theorem markAttendanceByDID_of_day_taken (env : MarkEnv) (students : List Student)
    (store : AttendanceStore) (did : String)
    (h : recordsOnDay (recordsOf store did) (dayBucket env.now) ≠ []) :
    AttendanceService.markAttendanceByDID env students store did
      = (store, .error duplicateForDay) := by
  obtain ⟨r, hr⟩ := List.exists_mem_of_ne_nil _ h
  simp only [recordsOnDay, List.mem_filter, decide_eq_true_eq] at hr
  have hfind : ((recordsOf store did).find?
      (fun record => decide (dayBucket record.timestamp = dayBucket env.now))).isSome := by
    rw [List.find?_isSome]
    exact ⟨r, hr.1, by simpa using hr.2⟩
  obtain ⟨x, hx⟩ := Option.isSome_iff_exists.mp hfind
  simp only [recordsOf] at hx
  simp [AttendanceService.markAttendanceByDID, StudentLookup.truthy_eq_true, hx, duplicateForDay]

/-- A mark on a day without a record appends the new record and then throws the
`TypeError` of the call of `didService.updateAttendanceCount`. -/
theorem markAttendanceByDID_of_day_free (env : MarkEnv) (students : List Student)
    (store : AttendanceStore) (did : String)
    (h : recordsOnDay (recordsOf store did) (dayBucket env.now) = []) :
    AttendanceService.markAttendanceByDID env students store did
      = (store.set did (recordsOf store did ++ [env.newRecord]),
          .error updateAttendanceCountMissing) := by
  have hfind : (recordsOf store did).find?
      (fun record => decide (dayBucket record.timestamp = dayBucket env.now)) = none := by
    rw [List.find?_eq_none]
    intro r hr
    have : r ∉ recordsOnDay (recordsOf store did) (dayBucket env.now) := by
      rw [h]; exact List.not_mem_nil r
    simp only [recordsOnDay, List.mem_filter, decide_eq_true_eq, not_and] at this
    simpa using this hr
  simp only [recordsOf] at hfind
  simp [AttendanceService.markAttendanceByDID, StudentLookup.truthy_eq_true, hfind,
    DIDService.updateAttendanceCount, updateAttendanceCountMissing, MarkEnv.newRecord, recordsOf]

theorem recordsOnDay_append (xs ys : List AttendanceRecord) (day : Int) :
    recordsOnDay (xs ++ ys) day = recordsOnDay xs day ++ recordsOnDay ys day := by
  simp [recordsOnDay]

theorem recordsOnDay_newRecord (env : MarkEnv) :
    recordsOnDay [env.newRecord] (dayBucket env.now) = [env.newRecord] := by
  simp [recordsOnDay, MarkEnv.newRecord]

/-- With pairwise distinct day buckets, a day holds at most one record. -/
theorem distinctDays_length_recordsOnDay_le {records : List AttendanceRecord}
    (h : DistinctDays records) (day : Int) : (recordsOnDay records day).length ≤ 1 := by
  induction records with
  | nil => simp [recordsOnDay]
  | cons a rest ih =>
    obtain ⟨hhead, htail⟩ := List.pairwise_cons.mp h
    by_cases ha : dayBucket a.timestamp = day
    · have hrest : recordsOnDay rest day = [] := by
        simp only [recordsOnDay, List.filter_eq_nil_iff, decide_eq_true_eq]
        intro b hb hbd
        exact hhead b hb (ha.trans hbd.symm)
      have hcons : recordsOnDay (a :: rest) day = a :: recordsOnDay rest day := by
        simp [recordsOnDay, ha]
      rw [hcons, hrest]
      simp
    · have hcons : recordsOnDay (a :: rest) day = recordsOnDay rest day := by
        simp [recordsOnDay, ha]
      rw [hcons]
      exact ih htail

/-- Appending a record on a free day keeps the day buckets distinct. -/
theorem distinctDays_append_of_day_free {records : List AttendanceRecord}
    (h : DistinctDays records) (r : AttendanceRecord)
    (hfree : recordsOnDay records (dayBucket r.timestamp) = []) :
    DistinctDays (records ++ [r]) := by
  unfold DistinctDays
  rw [List.pairwise_append]
  refine ⟨h, List.pairwise_singleton _ _, ?_⟩
  intro a ha b hb
  simp only [List.mem_singleton] at hb
  subst hb
  intro heq
  have : a ∈ recordsOnDay records (dayBucket b.timestamp) := by
    simp only [recordsOnDay, List.mem_filter, decide_eq_true_eq]
    exact ⟨ha, heq⟩
  rw [hfree] at this
  exact List.not_mem_nil a this

/-- The store a mark leaves behind: unchanged, or one record appended for the
marked DID on a day that had none. -/
theorem markAttendanceByDID_store (env : MarkEnv) (students : List Student)
    (store : AttendanceStore) (did : String) :
    (AttendanceService.markAttendanceByDID env students store did).1 = store
    ∨ (recordsOnDay (recordsOf store did) (dayBucket env.now) = []
        ∧ (AttendanceService.markAttendanceByDID env students store did).1
            = store.set did (recordsOf store did ++ [env.newRecord])) := by
  by_cases h : recordsOnDay (recordsOf store did) (dayBucket env.now) = []
  · right
    exact ⟨h, by rw [markAttendanceByDID_of_day_free env students store did h]⟩
  · left
    rw [markAttendanceByDID_of_day_taken env students store did h]

/-- Marking preserves the invariant of one record per DID and day. -/
theorem onePerDay_markAttendanceByDID {store : AttendanceStore} (h : OnePerDay store)
    (env : MarkEnv) (students : List Student) (did : String) :
    OnePerDay (AttendanceService.markAttendanceByDID env students store did).1 := by
  rcases markAttendanceByDID_store env students store did with hsame | ⟨hfree, hset⟩
  · rw [hsame]; exact h
  · rw [hset]
    intro other
    by_cases hne : other = did
    · subst hne
      rw [recordsOf_set_self]
      exact distinctDays_append_of_day_free (h other) env.newRecord (by simpa [MarkEnv.newRecord] using hfree)
    · rw [recordsOf_set_of_ne _ _ _ _ hne]
      exact h other

theorem dayBucket_sub_days (t k : Int) : dayBucket (t - 86400000 * k) = dayBucket t - k := by
  have hms : msPerDay = 86400000 := by norm_num [msPerDay]
  have h : t - 86400000 * k = t + 86400000 * (-k) := by ring
  rw [dayBucket, dayBucket, hms, h,
    Int.add_mul_ediv_left t (-k) (by norm_num : (86400000 : Int) ≠ 0)]
  ring

theorem dayBucket_mono {a b : Int} (h : a ≤ b) : dayBucket a ≤ dayBucket b := by
  simp only [dayBucket, msPerDay]
  exact Int.ediv_le_ediv (by norm_num) h

/-- The seeded store, key by key. -/
theorem initializeMockData_nil (clock : Nat → Int) :
    AttendanceService.initializeMockData clock [] =
      [ ("did:iota:test:student1",
          [ { timestamp := clock 0 - 86400000 * 7, sessionId := 1, transactionHash := none },
            { timestamp := clock 1 - 86400000 * 5, sessionId := 2, transactionHash := none },
            { timestamp := clock 2 - 86400000 * 3, sessionId := 3, transactionHash := none },
            { timestamp := clock 3 - 86400000 * 1, sessionId := 4, transactionHash := none } ]),
        ("did:iota:test:student2",
          [ { timestamp := clock 4 - 86400000 * 6, sessionId := 1, transactionHash := none },
            { timestamp := clock 5 - 86400000 * 4, sessionId := 2, transactionHash := none },
            { timestamp := clock 6 - 86400000 * 2, sessionId := 3, transactionHash := none } ]),
        ("did:iota:test:student3",
          [ { timestamp := clock 7 - 86400000 * 8, sessionId := 1, transactionHash := none },
            { timestamp := clock 8 - 86400000 * 6, sessionId := 2, transactionHash := none },
            { timestamp := clock 9 - 86400000 * 4, sessionId := 3, transactionHash := none },
            { timestamp := clock 10 - 86400000 * 2, sessionId := 4, transactionHash := none },
            { timestamp := clock 11 - 86400000 * 1, sessionId := 5, transactionHash := none } ]) ] := by
  simp [AttendanceService.initializeMockData, JsMap.set]

/-- The seeded records have pairwise distinct day buckets. -/
theorem initializeMockData_onePerDay (clock : Nat → Int) (hclock : ClockMonotone clock) :
    OnePerDay (AttendanceService.initializeMockData clock []) := by
  intro did
  rw [initializeMockData_nil]
  have b := fun i j (h : i ≤ j) => dayBucket_mono (hclock i j h)
  have h01 := b 0 1 (by decide)
  have h12 := b 1 2 (by decide)
  have h23 := b 2 3 (by decide)
  have h45 := b 4 5 (by decide)
  have h56 := b 5 6 (by decide)
  have h78 := b 7 8 (by decide)
  have h89 := b 8 9 (by decide)
  have h910 := b 9 10 (by decide)
  have h1011 := b 10 11 (by decide)
  by_cases h1 : "did:iota:test:student1" = did
  · simp only [recordsOf, JsMap.get, h1, if_true, Option.getD_some, DistinctDays,
      List.pairwise_cons, List.mem_cons, forall_eq_or_imp, dayBucket_sub_days]
    simp only [List.not_mem_nil, false_implies, implies_true, List.Pairwise.nil, and_true]
    omega
  · by_cases h2 : "did:iota:test:student2" = did
    · simp only [recordsOf, JsMap.get, h1, h2, if_true, if_false, Option.getD_some, DistinctDays,
        List.pairwise_cons, List.mem_cons, forall_eq_or_imp, dayBucket_sub_days]
      simp only [List.not_mem_nil, false_implies, implies_true, List.Pairwise.nil, and_true]
      omega
    · by_cases h3 : "did:iota:test:student3" = did
      · simp only [recordsOf, JsMap.get, h1, h2, h3, if_true, if_false, Option.getD_some,
          DistinctDays, List.pairwise_cons, List.mem_cons, forall_eq_or_imp, dayBucket_sub_days]
        simp only [List.not_mem_nil, false_implies, implies_true, List.Pairwise.nil, and_true]
        omega
      · simp [recordsOf, JsMap.get, h1, h2, h3, DistinctDays]

/-! ## Claims -/

/-- C1: when the record list of a DID already holds a record in the day bucket
of the current time, `markAttendanceByDID` throws
`Attendance already marked for today` and leaves the store unchanged; and after
two marks of one DID in the same day bucket, starting from records with distinct
day buckets, the second mark is rejected in that way and the DID has exactly one
record in that bucket. -/
theorem C1_duplicate_day_rejected (env : MarkEnv) (students : List Student)
    (store : AttendanceStore) (did : String) :
    (∀ r ∈ recordsOf store did, dayBucket r.timestamp = dayBucket env.now →
      AttendanceService.markAttendanceByDID env students store did
        = (store, .error (.error "Attendance already marked for today")))
    ∧ (∀ env₂ : MarkEnv, dayBucket env₂.now = dayBucket env.now →
        DistinctDays (recordsOf store did) →
        AttendanceService.markAttendanceByDID env₂ students
            (AttendanceService.markAttendanceByDID env students store did).1 did
          = ((AttendanceService.markAttendanceByDID env students store did).1,
              .error (.error "Attendance already marked for today"))
        ∧ (recordsOnDay
              (recordsOf (AttendanceService.markAttendanceByDID env₂ students
                (AttendanceService.markAttendanceByDID env students store did).1 did).1 did)
              (dayBucket env.now)).length = 1) := by
  constructor
  · intro r hr hday
    have hne : recordsOnDay (recordsOf store did) (dayBucket env.now) ≠ [] := by
      apply List.ne_nil_of_mem (a := r)
      simp only [recordsOnDay, List.mem_filter, decide_eq_true_eq]
      exact ⟨hr, hday⟩
    exact markAttendanceByDID_of_day_taken env students store did hne
  · intro env₂ hsame hinv
    have key : ∀ after : AttendanceStore,
        (recordsOnDay (recordsOf after did) (dayBucket env.now)).length = 1 →
        AttendanceService.markAttendanceByDID env₂ students after did
            = (after, .error (.error "Attendance already marked for today"))
          ∧ (recordsOnDay (recordsOf
              (AttendanceService.markAttendanceByDID env₂ students after did).1 did)
              (dayBucket env.now)).length = 1 := by
      intro after hone
      have hne : recordsOnDay (recordsOf after did) (dayBucket env₂.now) ≠ [] := by
        rw [hsame]
        intro hnil
        rw [hnil] at hone
        simp at hone
      have hcall := markAttendanceByDID_of_day_taken env₂ students after did hne
      refine ⟨hcall, ?_⟩
      rw [hcall]
      exact hone
    apply key
    rcases markAttendanceByDID_store env students store did with hkeep | ⟨hfree, hset⟩
    · rw [hkeep]
      have hle := distinctDays_length_recordsOnDay_le hinv (dayBucket env.now)
      have hne : recordsOnDay (recordsOf store did) (dayBucket env.now) ≠ [] := by
        intro hnil
        rw [markAttendanceByDID_of_day_free env students store did hnil] at hkeep
        have hrec := congrArg (fun s => recordsOf s did) hkeep
        simp only [recordsOf_set_self] at hrec
        have hlen := congrArg List.length hrec
        simp at hlen
      have hpos := List.length_pos.mpr hne
      omega
    · rw [hset, recordsOf_set_self, recordsOnDay_append, hfree, recordsOnDay_newRecord]
      simp

/-- C1 at a concrete store: Alice has a record at 1700000000000 ms and marks
again one second later. -/
theorem C1_duplicate_day_rejected_witness :
    AttendanceService.markAttendanceByDID
        { now := 1700000001000, sessionId := 7, transactionHash := "ab" } DIDService.students
        [("did:iota:alice123",
          [{ timestamp := 1700000000000, sessionId := 3, transactionHash := none }])]
        "did:iota:alice123"
      = ([("did:iota:alice123",
          [{ timestamp := 1700000000000, sessionId := 3, transactionHash := none }])],
          .error (.error "Attendance already marked for today"))
    ∧ (recordsOnDay
          (recordsOf (AttendanceService.markAttendanceByDID
            { now := 1700000002000, sessionId := 8, transactionHash := "cd" } DIDService.students
            (AttendanceService.markAttendanceByDID
              { now := 1700000001000, sessionId := 7, transactionHash := "ab" }
              DIDService.students
              [("did:iota:alice123",
                [{ timestamp := 1700000000000, sessionId := 3, transactionHash := none }])]
              "did:iota:alice123").1 "did:iota:alice123").1 "did:iota:alice123")
          (dayBucket 1700000001000)).length = 1 :=
  ⟨(C1_duplicate_day_rejected
      { now := 1700000001000, sessionId := 7, transactionHash := "ab" } DIDService.students
      [("did:iota:alice123",
        [{ timestamp := 1700000000000, sessionId := 3, transactionHash := none }])]
      "did:iota:alice123").1
      { timestamp := 1700000000000, sessionId := 3, transactionHash := none }
      (by simp [recordsOf, JsMap.get]) (by decide),
   ((C1_duplicate_day_rejected
      { now := 1700000001000, sessionId := 7, transactionHash := "ab" } DIDService.students
      [("did:iota:alice123",
        [{ timestamp := 1700000000000, sessionId := 3, transactionHash := none }])]
      "did:iota:alice123").2
      { now := 1700000002000, sessionId := 8, transactionHash := "cd" }
      (by decide) (by simp [recordsOf, JsMap.get, DistinctDays])).2⟩

/-- C2 fails as stated: the seeding reads `Date.now()` once per record, and when
the clock steps back across midnight before the last read, the last two seeded
records of `did:iota:test:student3` fall in the same day bucket 19674, so the
seeded store does not satisfy the invariant. -/
theorem C2_counterexample_clock_backwards :
    dayBucket (backwardsClock 10 - 86400000 * 2) = 19674
    ∧ dayBucket (backwardsClock 11 - 86400000 * 1) = 19674
    ∧ (recordsOnDay
        (recordsOf (AttendanceService.initializeMockData backwardsClock [])
          "did:iota:test:student3") 19674).length = 2
    ∧ ¬ DistinctDays
        (recordsOf (AttendanceService.initializeMockData backwardsClock [])
          "did:iota:test:student3")
    ∧ ¬ OnePerDay (AttendanceService.initializeMockData backwardsClock []) := by
  have hnot : ¬ DistinctDays
      (recordsOf (AttendanceService.initializeMockData backwardsClock [])
        "did:iota:test:student3") := by
    unfold DistinctDays
    decide
  exact ⟨by decide, by decide, by decide, hnot, fun h => hnot (h "did:iota:test:student3")⟩

/-- C2 (amended): one record per (DID, day bucket) is an invariant. A call of
`markAttendanceByDID` preserves it, whether it returns or throws (the first
component is the store the call leaves behind), and the seeded records satisfy
it when the successive `Date.now()` reads of the seeding do not decrease. -/
theorem C2_one_record_per_day_invariant (env : MarkEnv) (students : List Student)
    (store : AttendanceStore) (did : String) (clock : Nat → Int) :
    (OnePerDay store →
      OnePerDay (AttendanceService.markAttendanceByDID env students store did).1)
    ∧ (ClockMonotone clock → OnePerDay (AttendanceService.initializeMockData clock [])) :=
  ⟨fun h => onePerDay_markAttendanceByDID h env students did, initializeMockData_onePerDay clock⟩

/-- C2 at the seeded store read at 1700000000000 ms, marked for student3 at that
time. -/
theorem C2_one_record_per_day_invariant_witness :
    OnePerDay (AttendanceService.markAttendanceByDID
        { now := 1700000000000, sessionId := 7, transactionHash := "ab" } DIDService.students
        (AttendanceService.initializeMockData (fun _ => 1700000000000) [])
        "did:iota:test:student3").1
    ∧ OnePerDay (AttendanceService.initializeMockData (fun _ => 1700000000000) []) :=
  ⟨(C2_one_record_per_day_invariant
      { now := 1700000000000, sessionId := 7, transactionHash := "ab" } DIDService.students
      (AttendanceService.initializeMockData (fun _ => 1700000000000) [])
      "did:iota:test:student3" (fun _ => 1700000000000)).1
      (initializeMockData_onePerDay (fun _ => 1700000000000) (fun _ _ _ => le_refl _)),
   (C2_one_record_per_day_invariant
      { now := 1700000000000, sessionId := 7, transactionHash := "ab" } DIDService.students
      (AttendanceService.initializeMockData (fun _ => 1700000000000) [])
      "did:iota:test:student3" (fun _ => 1700000000000)).2 (fun _ _ _ => le_refl _)⟩

/-- Whatever its arguments, `markAttendanceByDID` either throws the duplicate-day
error or throws the `TypeError` of the call of
`didService.updateAttendanceCount`. -/
theorem markAttendanceByDID_outcome (env : MarkEnv) (students : List Student)
    (store : AttendanceStore) (did : String) :
    (AttendanceService.markAttendanceByDID env students store did).2
        = .error (.error "Attendance already marked for today")
    ∨ (AttendanceService.markAttendanceByDID env students store did).2
        = .error (.typeError "didService.updateAttendanceCount is not a function") := by
  by_cases h : recordsOnDay (recordsOf store did) (dayBucket env.now) = []
  · right
    rw [markAttendanceByDID_of_day_free env students store did h]
    rfl
  · left
    rw [markAttendanceByDID_of_day_taken env students store did h]
    rfl

/-- C3 (the code at a failing input): `did:iota:nobody` is the DID of no
registered student, yet `markAttendanceByDID` stores a record under it and
throws the `TypeError` of `didService.updateAttendanceCount`; and for no
arguments at all does the call throw `Student not found`. -/
theorem C3_unregistered_did_is_recorded :
    (DIDService.getStudentByDID DIDService.students "did:iota:nobody").success = false
    ∧ AttendanceService.markAttendanceByDID
          { now := 1700000000000, sessionId := 7, transactionHash := "ab" }
          DIDService.students [] "did:iota:nobody"
        = ([("did:iota:nobody",
              [{ timestamp := 1700000000000, sessionId := 7, transactionHash := some "ab" }])],
            .error (.typeError "didService.updateAttendanceCount is not a function"))
    ∧ ∀ (env : MarkEnv) (students : List Student) (store : AttendanceStore) (did : String),
        (AttendanceService.markAttendanceByDID env students store did).2
          ≠ .error (.error "Student not found") := by
  refine ⟨by decide, ?_, ?_⟩
  · rw [markAttendanceByDID_of_day_free _ _ _ _ (by simp [recordsOf, JsMap.get, recordsOnDay])]
    simp [recordsOf, JsMap.get, JsMap.set, MarkEnv.newRecord, updateAttendanceCountMissing]
  · intro env students store did
    rcases markAttendanceByDID_outcome env students store did with h | h <;> rw [h] <;> simp

/-- C4 (the code at a failing input): Alice is registered and has no record, yet
`markAttendanceByDID` does not return: it appends the record and then throws the
`TypeError` of `didService.updateAttendanceCount`; and for no arguments at all
does the call return a result. -/
theorem C4_mark_appends_then_throws :
    (DIDService.getStudentByDID DIDService.students "did:iota:alice123").success = true
    ∧ AttendanceService.markAttendanceByDID
          { now := 1700000000000, sessionId := 7, transactionHash := "ab" }
          DIDService.students [] "did:iota:alice123"
        = ([("did:iota:alice123",
              [{ timestamp := 1700000000000, sessionId := 7, transactionHash := some "ab" }])],
            .error (.typeError "didService.updateAttendanceCount is not a function"))
    ∧ ∀ (env : MarkEnv) (students : List Student) (store : AttendanceStore) (did : String)
        (result : MarkResult),
        (AttendanceService.markAttendanceByDID env students store did).2 ≠ .ok result := by
  refine ⟨by decide, ?_, ?_⟩
  · rw [markAttendanceByDID_of_day_free _ _ _ _ (by simp [recordsOf, JsMap.get, recordsOnDay])]
    simp [recordsOf, JsMap.get, JsMap.set, MarkEnv.newRecord, updateAttendanceCountMissing]
  · intro env students store did result
    rcases markAttendanceByDID_outcome env students store did with h | h <;> rw [h] <;> simp

/-! ### Percentage -/

theorem jsRound_intCast (z : Int) : jsRound (z : ℚ) = z := by
  rw [jsRound, Int.floor_eq_iff]
  constructor
  · linarith
  · linarith

/-- Rounding absorbs any perturbation below one half: the double-precision
evaluation of the quotient and the product, whose error is far below one half
for every array length, rounds to the same integer as the exact one. -/
theorem jsRound_of_abs_sub_lt (z : Int) (x : ℚ) (h : |x - z| < 1 / 2) : jsRound x = z := by
  rw [jsRound, Int.floor_eq_iff]
  rw [abs_lt] at h
  constructor
  · linarith [h.1]
  · linarith [h.2]

theorem calculateAttendancePercentage_eq (store : AttendanceStore) (did : String) :
    AttendanceService.calculateAttendancePercentage store did
      = 10 * ((recordsOf store did).length : Int) := by
  have h : (((recordsOf store did).length : ℚ) / ((10 : Nat) : ℚ)) * 100
      = ((10 * ((recordsOf store did).length : Int) : Int) : ℚ) := by
    push_cast
    ring
  simp only [AttendanceService.calculateAttendancePercentage]
  rw [if_pos (by decide)]
  change jsRound ((((recordsOf store did).length : ℚ) / ((10 : Nat) : ℚ)) * 100) = _
  rw [h, jsRound_intCast]

theorem mapM_except_view (records : List AttendanceRecord) (h : TimeValues records) :
    mapM_except (fun (record : AttendanceRecord) =>
      match toISOString record.timestamp with
      | .error e => Except.error e
      | .ok date =>
        .ok { timestamp := record.timestamp, sessionId := record.sessionId,
              transactionHash := record.transactionHash, date := date : RecordView }) records
      = .ok (records.map AttendanceRecord.view) := by
  induction records with
  | nil => rfl
  | cons a rest ih =>
    have ha : isTimeValue a.timestamp = true := h a (List.mem_cons_self a rest)
    have hrest : TimeValues rest := fun r hr => h r (List.mem_cons_of_mem a hr)
    have hiso : toISOString a.timestamp = .ok { ms := a.timestamp } := by
      simp [toISOString, ha]
    simp only [mapM_except, hiso, ih hrest, List.map_cons, AttendanceRecord.view]

/-- With valid time values, `getAttendance` returns the view of the records. -/
theorem getAttendance_of_timeValues (students : List Student) (store : AttendanceStore)
    (did : String) (h : TimeValues (recordsOf store did)) :
    AttendanceService.getAttendance students store did
      = .ok { did := did,
              student := some { name := .undefined, email := .undefined, nfcUid := .undefined },
              records := (recordsOf store did).map AttendanceRecord.view,
              totalSessions := (recordsOf store did).length,
              attendancePercentage :=
                AttendanceService.calculateAttendancePercentage store did } := by
  have hm := mapM_except_view (recordsOf store did) h
  simp only [recordsOf] at hm
  obtain ⟨hname, hemail, hnfc, _⟩ :=
    StudentLookup.prop_undefined (DIDService.getStudentByDID students did)
  simp only [AttendanceService.getAttendance, hm, StudentLookup.truthy_eq_true, if_true,
    recordsOf, hname, hemail, hnfc]

/-- Whenever `getAttendance` returns, its percentage is the computed one. -/
theorem getAttendance_percentage (students : List Student) (store : AttendanceStore)
    (did : String) (view : AttendanceView)
    (h : AttendanceService.getAttendance students store did = .ok view) :
    view.attendancePercentage = AttendanceService.calculateAttendancePercentage store did := by
  simp only [AttendanceService.getAttendance] at h
  split at h
  · cases h
  · cases h
    rfl

/-- C5: for a DID with n stored records, `calculateAttendancePercentage`,
`getAttendancePercentage` and the `attendancePercentage` of `getAttendance`
(which returns whenever the timestamps are valid time values) all equal 10 * n;
a DID without entry in the store gets 0 and 8 records give 80. -/
theorem C5_percentage_is_ten_per_record (students : List Student) (store : AttendanceStore)
    (did : String) :
    AttendanceService.calculateAttendancePercentage store did
        = 10 * ((recordsOf store did).length : Int)
    ∧ AttendanceService.getAttendancePercentage store did
        = .ok (10 * ((recordsOf store did).length : Int))
    ∧ (∀ view, AttendanceService.getAttendance students store did = .ok view →
        view.attendancePercentage = 10 * ((recordsOf store did).length : Int))
    ∧ (TimeValues (recordsOf store did) →
        ∃ view, AttendanceService.getAttendance students store did = .ok view
          ∧ view.attendancePercentage = 10 * ((recordsOf store did).length : Int))
    ∧ (store.get did = none → AttendanceService.calculateAttendancePercentage store did = 0)
    ∧ ((recordsOf store did).length = 8 →
        AttendanceService.calculateAttendancePercentage store did = 80) := by
  have hcalc := calculateAttendancePercentage_eq store did
  refine ⟨hcalc, ?_, ?_, ?_, ?_, ?_⟩
  · rw [AttendanceService.getAttendancePercentage, hcalc]
  · intro view hview
    rw [getAttendance_percentage students store did view hview, hcalc]
  · intro hvalid
    exact ⟨_, getAttendance_of_timeValues students store did hvalid, hcalc⟩
  · intro hnone
    rw [hcalc]
    simp [recordsOf, hnone]
  · intro h8
    rw [hcalc, h8]
    rfl

/-- C5 at concrete stores: Alice with eight records gets 80 from the three
readers, and a DID without entry gets 0. -/
theorem C5_percentage_is_ten_per_record_witness :
    AttendanceService.calculateAttendancePercentage sampleEight "did:iota:alice123" = 80
    ∧ (∃ view, AttendanceService.getAttendance DIDService.students sampleEight
          "did:iota:alice123" = .ok view
        ∧ view.attendancePercentage
            = 10 * ((recordsOf sampleEight "did:iota:alice123").length : Int))
    ∧ AttendanceService.calculateAttendancePercentage sampleEight "did:iota:bob456" = 0 :=
  ⟨(C5_percentage_is_ten_per_record DIDService.students sampleEight
      "did:iota:alice123").2.2.2.2.2 (by decide),
   (C5_percentage_is_ten_per_record DIDService.students sampleEight
      "did:iota:alice123").2.2.2.1 (by
        simp [TimeValues, recordsOf, sampleEight, JsMap.get, isTimeValue, maxTimeValue,
          List.range, List.range.loop]),
   (C5_percentage_is_ten_per_record DIDService.students sampleEight
      "did:iota:bob456").2.2.2.2.1 (by decide)⟩

/-- C6 fails as stated: six marks of `did:iota:test:student3` on six consecutive
days, after the five seeded records, leave eleven records, and the percentage
is 110, above 100. -/
theorem C6_counterexample_eleven_records :
    (recordsOf (AttendanceService.markAll DIDService.students sampleSeed sixMarks)
        "did:iota:test:student3").length = 11
    ∧ AttendanceService.calculateAttendancePercentage
        (AttendanceService.markAll DIDService.students sampleSeed sixMarks)
        "did:iota:test:student3" = 110
    ∧ ¬ (AttendanceService.calculateAttendancePercentage
        (AttendanceService.markAll DIDService.students sampleSeed sixMarks)
        "did:iota:test:student3" ≤ 100) := by
  have h11 : (recordsOf (AttendanceService.markAll DIDService.students sampleSeed sixMarks)
      "did:iota:test:student3").length = 11 := by decide
  have h110 : AttendanceService.calculateAttendancePercentage
      (AttendanceService.markAll DIDService.students sampleSeed sixMarks)
      "did:iota:test:student3" = 110 := by
    rw [calculateAttendancePercentage_eq, h11]
    rfl
  refine ⟨h11, h110, ?_⟩
  rw [h110]
  decide

/-- C6 (amended): for every store and DID the percentage is 10 times the number
of records of the DID; it is never negative, and it is at most 100 exactly
when the DID has at most 10 records (there is no clamp). -/
theorem C6_percentage_bounds (store : AttendanceStore) (did : String) :
    0 ≤ AttendanceService.calculateAttendancePercentage store did
    ∧ AttendanceService.calculateAttendancePercentage store did
        = 10 * ((recordsOf store did).length : Int)
    ∧ (AttendanceService.calculateAttendancePercentage store did ≤ 100
        ↔ (recordsOf store did).length ≤ 10) := by
  rw [calculateAttendancePercentage_eq]
  refine ⟨by omega, rfl, ?_⟩
  constructor <;> intro h <;> omega

/-- The number of records of a DID never decreases in a mark. -/
theorem length_recordsOf_markAttendanceByDID (env : MarkEnv) (students : List Student)
    (store : AttendanceStore) (did other : String) :
    (recordsOf store other).length
      ≤ (recordsOf (AttendanceService.markAttendanceByDID env students store did).1
          other).length := by
  rcases markAttendanceByDID_store env students store did with hkeep | ⟨_, hset⟩
  · rw [hkeep]
  · rw [hset]
    by_cases hne : other = did
    · subst hne
      rw [recordsOf_set_self]
      simp
    · rw [recordsOf_set_of_ne _ _ _ _ hne]

/-- C7: for every DID, a call of `markAttendanceByDID` on any DID, whether it
stores a record or not (the first component is the store it leaves behind),
never lowers `calculateAttendancePercentage`. -/
theorem C7_percentage_monotone (env : MarkEnv) (students : List Student)
    (store : AttendanceStore) (did other : String) :
    AttendanceService.calculateAttendancePercentage store other
      ≤ AttendanceService.calculateAttendancePercentage
          (AttendanceService.markAttendanceByDID env students store did).1 other := by
  rw [calculateAttendancePercentage_eq, calculateAttendancePercentage_eq]
  have h := length_recordsOf_markAttendanceByDID env students store did other
  omega

/-! ### Timestamp order -/

theorem JsMap.mem_of_get {α : Type} (m : JsMap α) (key : String) (value : α)
    (h : m.get key = some value) : (key, value) ∈ m := by
  induction m with
  | nil => simp [JsMap.get] at h
  | cons p rest ih =>
    obtain ⟨k, v⟩ := p
    by_cases hk : k = key
    · simp only [JsMap.get, hk, if_true, Option.some.injEq] at h
      subst hk; subst h
      exact List.mem_cons_self _ _
    · simp only [JsMap.get, hk, if_false] at h
      exact List.mem_cons_of_mem _ (ih h)

/-- A bound on every stored timestamp bounds the timestamps of each DID. -/
theorem timestamp_le_of_stored (store : AttendanceStore) (now : Int)
    (h : ∀ entry ∈ store, ∀ r ∈ entry.2, r.timestamp ≤ now) (did : String) :
    ∀ r ∈ recordsOf store did, r.timestamp ≤ now := by
  intro r hr
  cases hg : store.get did with
  | none => simp [recordsOf, hg] at hr
  | some records =>
    simp only [recordsOf, hg, Option.getD_some] at hr
    exact h (did, records) (JsMap.mem_of_get store did records hg) r hr

/-- A mark at a time no earlier than the stored timestamps keeps the order. -/
theorem sortedStore_markAttendanceByDID {store : AttendanceStore} (h : SortedStore store)
    (env : MarkEnv) (students : List Student) (did : String)
    (hnow : ∀ entry ∈ store, ∀ r ∈ entry.2, r.timestamp ≤ env.now) :
    SortedStore (AttendanceService.markAttendanceByDID env students store did).1 := by
  rcases markAttendanceByDID_store env students store did with hkeep | ⟨_, hset⟩
  · rw [hkeep]; exact h
  · rw [hset]
    intro other
    by_cases hne : other = did
    · subst hne
      rw [recordsOf_set_self]
      unfold SortedByTime
      rw [List.pairwise_append]
      refine ⟨h other, List.pairwise_singleton _ _, ?_⟩
      intro a ha b hb
      simp only [List.mem_singleton] at hb
      subst hb
      exact timestamp_le_of_stored store env.now hnow other a ha
    · rw [recordsOf_set_of_ne _ _ _ _ hne]
      exact h other

/-- The seeded records are in timestamp order under a monotone clock. -/
theorem initializeMockData_sorted (clock : Nat → Int) (hclock : ClockMonotone clock) :
    SortedStore (AttendanceService.initializeMockData clock []) := by
  intro did
  rw [initializeMockData_nil]
  have h01 := hclock 0 1 (by decide)
  have h12 := hclock 1 2 (by decide)
  have h23 := hclock 2 3 (by decide)
  have h45 := hclock 4 5 (by decide)
  have h56 := hclock 5 6 (by decide)
  have h78 := hclock 7 8 (by decide)
  have h89 := hclock 8 9 (by decide)
  have h910 := hclock 9 10 (by decide)
  have h1011 := hclock 10 11 (by decide)
  by_cases h1 : "did:iota:test:student1" = did
  · simp only [recordsOf, JsMap.get, h1, if_true, Option.getD_some, SortedByTime,
      List.pairwise_cons, List.mem_cons, forall_eq_or_imp]
    simp only [List.not_mem_nil, false_implies, implies_true, List.Pairwise.nil, and_true]
    omega
  · by_cases h2 : "did:iota:test:student2" = did
    · simp only [recordsOf, JsMap.get, h1, h2, if_true, if_false, Option.getD_some, SortedByTime,
        List.pairwise_cons, List.mem_cons, forall_eq_or_imp]
      simp only [List.not_mem_nil, false_implies, implies_true, List.Pairwise.nil, and_true]
      omega
    · by_cases h3 : "did:iota:test:student3" = did
      · simp only [recordsOf, JsMap.get, h1, h2, h3, if_true, if_false, Option.getD_some,
          SortedByTime, List.pairwise_cons, List.mem_cons, forall_eq_or_imp]
        simp only [List.not_mem_nil, false_implies, implies_true, List.Pairwise.nil, and_true]
        omega
      · simp [recordsOf, JsMap.get, h1, h2, h3, SortedByTime]

/-- The order survives any sequence of marks whose clock never runs backwards. -/
theorem sortedStore_markAll (students : List Student) (calls : List (MarkEnv × String)) :
    ∀ store : AttendanceStore, SortedStore store → ClockNeverBackwards students store calls →
      SortedStore (AttendanceService.markAll students store calls) := by
  induction calls with
  | nil => intro store h _; exact h
  | cons call rest ih =>
    obtain ⟨env, did⟩ := call
    intro store h hclock
    obtain ⟨hnow, hrest⟩ := hclock
    exact ih _ (sortedStore_markAttendanceByDID h env students did hnow) hrest

/-- The records `getAttendance` returns carry the stored timestamps, in the
stored order. -/
theorem mapM_except_timestamps (records : List AttendanceRecord) :
    ∀ views : List RecordView,
      mapM_except (fun (record : AttendanceRecord) =>
        match toISOString record.timestamp with
        | .error e => Except.error e
        | .ok date =>
          .ok { timestamp := record.timestamp, sessionId := record.sessionId,
                transactionHash := record.transactionHash, date := date : RecordView })
        records = .ok views →
      views.map (fun v => v.timestamp) = records.map (fun r => r.timestamp) := by
  induction records with
  | nil =>
    intro views h
    simp only [mapM_except, Except.ok.injEq] at h
    subst h
    rfl
  | cons a rest ih =>
    intro views h
    simp only [mapM_except] at h
    cases hiso : toISOString a.timestamp with
    | error e => simp [hiso] at h
    | ok date =>
      simp only [hiso] at h
      split at h
      · cases h
      · rename_i bs hbs
        cases h
        simp only [List.map_cons, ih bs hbs]

theorem getAttendance_timestamps (students : List Student) (store : AttendanceStore)
    (did : String) (view : AttendanceView)
    (h : AttendanceService.getAttendance students store did = .ok view) :
    view.records.map (fun v => v.timestamp)
      = (recordsOf store did).map (fun r => r.timestamp) := by
  simp only [AttendanceService.getAttendance] at h
  split at h
  · cases h
  · rename_i views hviews
    cases h
    exact mapM_except_timestamps _ views hviews

/-- C8: in every store reached from the seeded data by `markAttendanceByDID`
calls, with a clock that never runs backwards (the reads of the seeding do not
decrease, and each call reads a time no earlier than every stored timestamp),
the records of every DID are stored in non-decreasing timestamp order, every
result of `getAttendance` lists them in that order, and `getAttendance` does
return when the timestamps are valid time values. -/
theorem C8_records_in_time_order (students : List Student) (clock : Nat → Int)
    (calls : List (MarkEnv × String)) (did : String) (hclock : ClockMonotone clock)
    (hcalls : ClockNeverBackwards students
      (AttendanceService.initializeMockData clock []) calls) :
    SortedByTime (recordsOf (AttendanceService.markAll students
        (AttendanceService.initializeMockData clock []) calls) did)
    ∧ (∀ view, AttendanceService.getAttendance students (AttendanceService.markAll students
          (AttendanceService.initializeMockData clock []) calls) did = .ok view →
        view.records.Pairwise (fun a b => a.timestamp ≤ b.timestamp))
    ∧ (TimeValues (recordsOf (AttendanceService.markAll students
          (AttendanceService.initializeMockData clock []) calls) did) →
        ∃ view, AttendanceService.getAttendance students (AttendanceService.markAll students
          (AttendanceService.initializeMockData clock []) calls) did = .ok view
          ∧ view.records.Pairwise (fun a b => a.timestamp ≤ b.timestamp)) := by
  have hsorted := sortedStore_markAll students calls _
    (initializeMockData_sorted clock hclock) hcalls did
  have hview : ∀ view, AttendanceService.getAttendance students
      (AttendanceService.markAll students
        (AttendanceService.initializeMockData clock []) calls) did = .ok view →
      view.records.Pairwise (fun a b => a.timestamp ≤ b.timestamp) := by
    intro view h
    have hts := getAttendance_timestamps students _ did view h
    have hmap : (view.records.map (fun v => v.timestamp)).Pairwise (fun x y => x ≤ y) := by
      rw [hts, List.pairwise_map]
      exact hsorted
    rw [List.pairwise_map] at hmap
    exact hmap
  refine ⟨hsorted, hview, ?_⟩
  intro hvalid
  exact ⟨_, getAttendance_of_timeValues students _ did hvalid,
    hview _ (getAttendance_of_timeValues students _ did hvalid)⟩

/-- C8 at the seeded store read at 1700000000000 ms, followed by six marks of
`did:iota:test:student3` on six consecutive days. -/
theorem C8_records_in_time_order_witness :
    SortedByTime (recordsOf (AttendanceService.markAll DIDService.students
        (AttendanceService.initializeMockData sampleClock []) sixMarks)
        "did:iota:test:student3")
    ∧ ∃ view, AttendanceService.getAttendance DIDService.students
          (AttendanceService.markAll DIDService.students
            (AttendanceService.initializeMockData sampleClock []) sixMarks)
          "did:iota:test:student3" = .ok view
        ∧ view.records.Pairwise (fun a b => a.timestamp ≤ b.timestamp) :=
  ⟨(C8_records_in_time_order DIDService.students sampleClock sixMarks "did:iota:test:student3"
      (fun _ _ _ => le_refl _)
      (by simp only [ClockNeverBackwards, sixMarks]; decide)).1,
   (C8_records_in_time_order DIDService.students sampleClock sixMarks "did:iota:test:student3"
      (fun _ _ _ => le_refl _)
      (by simp only [ClockNeverBackwards, sixMarks]; decide)).2.2
      (by unfold TimeValues; decide)⟩

/-! ### Issuance -/

theorem issueCertificate_of_stored (env : IssueEnv) (students : List Student)
    (attendance : AttendanceStore) (credentials : CredentialStore) (did : String)
    (credential : JsObject) (h : credentials.get did = some credential) :
    CredentialService.issueCertificate env students attendance credentials did
      = (credentials, .error (.error "Certificate already issued")) := by
  simp [CredentialService.issueCertificate, StudentLookup.truthy_eq_true, h]

theorem issueCertificate_of_insufficient (env : IssueEnv) (students : List Student)
    (attendance : AttendanceStore) (credentials : CredentialStore) (did : String)
    (hnone : credentials.get did = none)
    (hlow : AttendanceService.calculateAttendancePercentage attendance did < 80) :
    CredentialService.issueCertificate env students attendance credentials did
      = (credentials,
          .error (.error "Insufficient attendance for certificate (minimum 80% required)")) := by
  simp [CredentialService.issueCertificate, StudentLookup.truthy_eq_true, hnone,
    AttendanceService.getAttendancePercentage, hlow]

/-- An eligible DID with valid time values: the credential is stored, and then
the call of `didService.issueCertificate` throws its `TypeError`. -/
theorem issueCertificate_of_eligible (env : IssueEnv) (students : List Student)
    (attendance : AttendanceStore) (credentials : CredentialStore) (did : String)
    (hnone : credentials.get did = none)
    (hhigh : 80 ≤ AttendanceService.calculateAttendancePercentage attendance did)
    (hvalid : TimeValues (recordsOf attendance did)) :
    CredentialService.issueCertificate env students attendance credentials did
      = (credentials.set did
          (CredentialService.createVerifiableCredential env did
            (DIDService.getStudentByDID students did)
            { did := did,
              student := some { name := .undefined, email := .undefined, nfcUid := .undefined },
              records := (recordsOf attendance did).map AttendanceRecord.view,
              totalSessions := (recordsOf attendance did).length,
              attendancePercentage :=
                AttendanceService.calculateAttendancePercentage attendance did }),
          .error (.typeError "didService.issueCertificate is not a function")) := by
  have hnot : ¬ AttendanceService.calculateAttendancePercentage attendance did < 80 := by omega
  simp [CredentialService.issueCertificate, StudentLookup.truthy_eq_true, hnone,
    AttendanceService.getAttendancePercentage, hnot,
    getAttendance_of_timeValues students attendance did hvalid, DIDService.issueCertificate]

/-- The credential store a call of `issueCertificate` leaves behind: unchanged,
or one credential set under the DID. -/
theorem issueCertificate_store (env : IssueEnv) (students : List Student)
    (attendance : AttendanceStore) (credentials : CredentialStore) (did : String) :
    (CredentialService.issueCertificate env students attendance credentials did).1 = credentials
    ∨ ∃ credential,
        (CredentialService.issueCertificate env students attendance credentials did).1
          = credentials.set did credential := by
  simp only [CredentialService.issueCertificate, StudentLookup.truthy_eq_true,
    AttendanceService.getAttendancePercentage, DIDService.issueCertificate]
  split
  · left; rfl
  · split
    · left; rfl
    · split
      · left; rfl
      · split
        · left; rfl
        · right; exact ⟨_, rfl⟩

/-- At 80 percent or more, the call is not rejected for insufficient
attendance. -/
theorem issueCertificate_not_insufficient (env : IssueEnv) (students : List Student)
    (attendance : AttendanceStore) (credentials : CredentialStore) (did : String)
    (hhigh : 80 ≤ AttendanceService.calculateAttendancePercentage attendance did) :
    (CredentialService.issueCertificate env students attendance credentials did).2
      ≠ .error (.error "Insufficient attendance for certificate (minimum 80% required)") := by
  have hnot : ¬ AttendanceService.calculateAttendancePercentage attendance did < 80 := by omega
  cases hget : credentials.get did with
  | some credential =>
    rw [issueCertificate_of_stored env students attendance credentials did credential hget]
    simp
  | none =>
    simp only [CredentialService.issueCertificate, StudentLookup.truthy_eq_true,
      AttendanceService.getAttendancePercentage, DIDService.issueCertificate, hget, hnot,
      Bool.not_true, Bool.false_eq_true, if_false]
    split
    · rename_i e he
      simp only [AttendanceService.getAttendance] at he
      split at he
      · cases he; simp
      · cases he
    · simp

theorem initializeMockData_credentials_nil (env : SeedEnv) :
    (CredentialService.initializeMockData env []).keys = ["did:iota:test:student1"] := by
  simp [CredentialService.initializeMockData, JsMap.set, JsMap.keys]

/-- C9: for a DID that has a credential in the store, `issueCertificate` throws
`Certificate already issued` and leaves the credential store unchanged; after a
first call on an eligible DID (no credential, at least 80 percent, valid time
values), a second call on the same DID is rejected in that way; and a store
without two entries for one DID, such as the seeded one, stays so through both
calls. -/
theorem C9_second_issue_rejected (env env₂ : IssueEnv) (students : List Student)
    (attendance : AttendanceStore) (credentials : CredentialStore) (did : String)
    (seedEnv : SeedEnv) :
    ((credentials.get did).isSome = true →
      CredentialService.issueCertificate env students attendance credentials did
        = (credentials, .error (.error "Certificate already issued")))
    ∧ (credentials.get did = none →
        80 ≤ AttendanceService.calculateAttendancePercentage attendance did →
        TimeValues (recordsOf attendance did) →
        CredentialService.issueCertificate env₂ students attendance
            (CredentialService.issueCertificate env students attendance credentials did).1 did
          = ((CredentialService.issueCertificate env students attendance credentials did).1,
              .error (.error "Certificate already issued")))
    ∧ (credentials.keys.Nodup →
        (CredentialService.issueCertificate env students attendance credentials did).1.keys.Nodup
        ∧ (CredentialService.issueCertificate env₂ students attendance
            (CredentialService.issueCertificate env students attendance credentials did).1
            did).1.keys.Nodup)
    ∧ (CredentialService.initializeMockData seedEnv []).keys.Nodup := by
  have hnodup : ∀ (e : IssueEnv) (creds : CredentialStore), creds.keys.Nodup →
      (CredentialService.issueCertificate e students attendance creds did).1.keys.Nodup := by
    intro e creds h
    rcases issueCertificate_store e students attendance creds did with hkeep | ⟨c, hset⟩
    · rw [hkeep]; exact h
    · rw [hset]; exact JsMap.keys_nodup_set creds did c h
  refine ⟨?_, ?_, ?_, ?_⟩
  · intro hsome
    obtain ⟨c, hc⟩ := Option.isSome_iff_exists.mp hsome
    exact issueCertificate_of_stored env students attendance credentials did c hc
  · intro hnone hhigh hvalid
    rw [issueCertificate_of_eligible env students attendance credentials did hnone hhigh hvalid]
    exact issueCertificate_of_stored env₂ students attendance _ did _
      (JsMap.get_set_self credentials did _)
  · intro h
    exact ⟨hnodup env credentials h, hnodup env₂ _ (hnodup env credentials h)⟩
  · rw [initializeMockData_credentials_nil]
    simp

/-- C9 at concrete stores: the seeded credential of `did:iota:test:student1`
blocks issuance, and Alice, with eight records and no credential, is rejected on
the second of two calls. -/
theorem C9_second_issue_rejected_witness :
    CredentialService.issueCertificate (sampleIssueEnv 0) DIDService.students sampleEight
        (CredentialService.initializeMockData sampleSeedEnv []) "did:iota:test:student1"
      = (CredentialService.initializeMockData sampleSeedEnv [],
          .error (.error "Certificate already issued"))
    ∧ CredentialService.issueCertificate (sampleIssueEnv 1) DIDService.students sampleEight
        (CredentialService.issueCertificate (sampleIssueEnv 0) DIDService.students sampleEight
          (CredentialService.initializeMockData sampleSeedEnv []) "did:iota:alice123").1
        "did:iota:alice123"
      = ((CredentialService.issueCertificate (sampleIssueEnv 0) DIDService.students sampleEight
          (CredentialService.initializeMockData sampleSeedEnv []) "did:iota:alice123").1,
          .error (.error "Certificate already issued"))
    ∧ (CredentialService.issueCertificate (sampleIssueEnv 0) DIDService.students sampleEight
          (CredentialService.initializeMockData sampleSeedEnv [])
          "did:iota:alice123").1.keys.Nodup :=
  ⟨(C9_second_issue_rejected (sampleIssueEnv 0) (sampleIssueEnv 1) DIDService.students
      sampleEight (CredentialService.initializeMockData sampleSeedEnv [])
      "did:iota:test:student1" sampleSeedEnv).1 (by decide),
   (C9_second_issue_rejected (sampleIssueEnv 0) (sampleIssueEnv 1) DIDService.students
      sampleEight (CredentialService.initializeMockData sampleSeedEnv [])
      "did:iota:alice123" sampleSeedEnv).2.1 rfl
      (by rw [calculateAttendancePercentage_eq]; decide)
      (by unfold TimeValues; decide),
   ((C9_second_issue_rejected (sampleIssueEnv 0) (sampleIssueEnv 1) DIDService.students
      sampleEight (CredentialService.initializeMockData sampleSeedEnv [])
      "did:iota:alice123" sampleSeedEnv).2.2.1
      (by rw [initializeMockData_credentials_nil]; simp)).1⟩

/-- C10: for a DID without stored credential whose percentage is below 80, which
is the case exactly when it has fewer than 8 records, `issueCertificate` throws
`Insufficient attendance for certificate (minimum 80% required)` and leaves the
credential store unchanged; with exactly 8 records the call is not rejected
with that error. -/
theorem C10_insufficient_attendance (env : IssueEnv) (students : List Student)
    (attendance : AttendanceStore) (credentials : CredentialStore) (did : String) :
    (credentials.get did = none →
      AttendanceService.calculateAttendancePercentage attendance did < 80 →
      CredentialService.issueCertificate env students attendance credentials did
        = (credentials,
            .error (.error "Insufficient attendance for certificate (minimum 80% required)")))
    ∧ (AttendanceService.calculateAttendancePercentage attendance did < 80
        ↔ (recordsOf attendance did).length < 8)
    ∧ ((recordsOf attendance did).length = 8 →
        (CredentialService.issueCertificate env students attendance credentials did).2
          ≠ .error (.error "Insufficient attendance for certificate (minimum 80% required)")) := by
  refine ⟨issueCertificate_of_insufficient env students attendance credentials did, ?_, ?_⟩
  · rw [calculateAttendancePercentage_eq]
    constructor <;> intro h <;> omega
  · intro h8
    apply issueCertificate_not_insufficient
    rw [calculateAttendancePercentage_eq, h8]
    decide

/-- C10 at concrete stores: `did:iota:test:student3` has five seeded records and
no credential and is rejected; Alice with eight records is not rejected for
insufficient attendance. -/
theorem C10_insufficient_attendance_witness :
    CredentialService.issueCertificate (sampleIssueEnv 0) DIDService.students sampleSeed
        (CredentialService.initializeMockData sampleSeedEnv []) "did:iota:test:student3"
      = (CredentialService.initializeMockData sampleSeedEnv [],
          .error (.error "Insufficient attendance for certificate (minimum 80% required)"))
    ∧ (CredentialService.issueCertificate (sampleIssueEnv 0) DIDService.students sampleEight
        (CredentialService.initializeMockData sampleSeedEnv []) "did:iota:alice123").2
      ≠ .error (.error "Insufficient attendance for certificate (minimum 80% required)") :=
  ⟨(C10_insufficient_attendance (sampleIssueEnv 0) DIDService.students sampleSeed
      (CredentialService.initializeMockData sampleSeedEnv []) "did:iota:test:student3").1 rfl
      (by rw [calculateAttendancePercentage_eq]; decide),
   (C10_insufficient_attendance (sampleIssueEnv 0) DIDService.students sampleEight
      (CredentialService.initializeMockData sampleSeedEnv []) "did:iota:alice123").2.2
      (by decide)⟩

/-! ### Verification -/

theorem JsVal.getProp_of_truthy (v : JsVal) (name : String) (h : v.truthy = true) :
    v.getProp name = .ok (v.prop name) := by
  cases v <;> simp_all [JsVal.getProp, JsVal.truthy]

theorem JsVal.prop_obj (props : List (String × JsVal)) (name : String) :
    (JsVal.obj props).prop name = JsObject.prop props name := rfl

theorem JsVal.getProp_obj (props : List (String × JsVal)) (name : String) :
    (JsVal.obj props).getProp name = .ok (JsObject.prop props name) := rfl

/-- The source of `verifyCredential` computes the cascade of checks. -/
theorem verifyCredential_eq_verifyChecks (credentials : CredentialStore) (credential : JsVal) :
    CredentialService.verifyCredential credentials credential
      = verifyChecks credentials credential := by
  cases credential with
  | undefined => rfl
  | null => rfl
  | bool b => rfl
  | num n => rfl
  | str s => rfl
  | arr items => rfl
  | obj props =>
    simp only [CredentialService.verifyCredential, CredentialService.verifyCredentialBody,
      verifyChecks, structureOk, proofOk, inRegistry, JsVal.notProp, JsVal.getProp_obj,
      JsVal.isNullish, JsVal.prop_obj]
    cases h1 : (JsObject.prop props "id").truthy <;>
    cases h2 : (JsObject.prop props "type").truthy <;>
    cases h3 : (JsObject.prop props "issuer").truthy <;>
    cases h4 : (JsObject.prop props "credentialSubject").truthy <;>
    simp [orElseM]
    cases h5 : (JsObject.prop props "proof").truthy
    · simp
    · simp only [JsVal.getProp_of_truthy _ _ h5, JsVal.getProp_of_truthy _ _ h4]
      cases h6 : ((JsObject.prop props "proof").prop "signature").truthy
      · simp
      · simp
        cases credentials.getByValue ((JsObject.prop props "credentialSubject").prop "id") with
        | none => simp
        | some stored =>
          cases hs : (JsVal.strictEq (JsObject.prop stored "id") (JsObject.prop props "id")) <;>
            simp [hs]

/-! ### Issuance, revocation and verification together -/

/-- Whatever its arguments, `issueCertificate` throws: every path ends in a
`throw`, the last one being the `TypeError` of `didService.issueCertificate`. -/
theorem issueCertificate_never_returns (env : IssueEnv) (students : List Student)
    (attendance : AttendanceStore) (credentials : CredentialStore) (did : String)
    (result : IssueResult) :
    (CredentialService.issueCertificate env students attendance credentials did).2
      ≠ .ok result := by
  simp only [CredentialService.issueCertificate, StudentLookup.truthy_eq_true,
    AttendanceService.getAttendancePercentage, DIDService.issueCertificate]
  split
  · simp
  · split
    · simp
    · split
      · simp
      · split
        · simp
        · simp

/-- The call of `issueCertificate` that builds `sampleIssued`. -/
theorem issueCertificate_sample :
    CredentialService.issueCertificate (sampleIssueEnv 0) DIDService.students sampleEight
        (CredentialService.initializeMockData sampleSeedEnv []) "did:iota:alice123"
      = (sampleIssued, .error (.typeError "didService.issueCertificate is not a function")) := by
  have hpct : AttendanceService.calculateAttendancePercentage sampleEight "did:iota:alice123"
      = 80 := by
    rw [calculateAttendancePercentage_eq]; decide
  have hlen : (recordsOf sampleEight "did:iota:alice123").length = 8 := by decide
  rw [issueCertificate_of_eligible (sampleIssueEnv 0) DIDService.students sampleEight
    (CredentialService.initializeMockData sampleSeedEnv []) "did:iota:alice123" rfl
    (by rw [hpct]) (by unfold TimeValues; decide), hpct, hlen]
  rfl

theorem JsObject.prop_setProp_self (o : JsObject) (name : String) (value : JsVal) :
    (o.setProp name value).prop name = value := by
  simp [JsObject.prop, JsObject.setProp, JsMap.get_set_self]

theorem JsObject.prop_setProp_of_ne (o : JsObject) (name other : String) (value : JsVal)
    (hne : other ≠ name) : (o.setProp name value).prop other = o.prop other := by
  simp [JsObject.prop, JsObject.setProp, JsMap.get_set_of_ne _ _ _ _ hne]

theorem revokeCredential_of_none (revokedAt : String) (credentials : CredentialStore)
    (did : String) (h : credentials.get did = none) :
    CredentialService.revokeCredential revokedAt credentials did
      = (credentials, .error (.error "Credential not found")) := by
  simp [CredentialService.revokeCredential, h]

theorem revokeCredential_of_some (revokedAt : String) (credentials : CredentialStore)
    (did : String) (credential : JsObject) (h : credentials.get did = some credential) :
    CredentialService.revokeCredential revokedAt credentials did
      = (credentials.set did
          ((credential.setProp "status" (.str "revoked")).setProp "revokedAt"
            (.str revokedAt)),
         .ok { success := true,
               credential := (credential.setProp "status" (.str "revoked")).setProp
                 "revokedAt" (.str revokedAt),
               message := "Credential revoked successfully" }) := by
  simp [CredentialService.revokeCredential, h]

/-- Revocation writes `status` and `revokedAt` only. -/
theorem prop_revoked (credential : JsObject) (revokedAt name : String)
    (hs : name ≠ "status") (hr : name ≠ "revokedAt") :
    ((credential.setProp "status" (.str "revoked")).setProp "revokedAt"
        (.str revokedAt)).prop name = credential.prop name := by
  rw [JsObject.prop_setProp_of_ne _ _ _ _ hr, JsObject.prop_setProp_of_ne _ _ _ _ hs]

/-- Check 3 gives the same answer before and after a revocation. -/
theorem inRegistry_revokeCredential (revokedAt : String) (credentials : CredentialStore)
    (did : String) (credential : JsVal) :
    inRegistry (CredentialService.revokeCredential revokedAt credentials did).1 credential
      = inRegistry credentials credential := by
  cases hget : credentials.get did with
  | none => rw [revokeCredential_of_none revokedAt credentials did hget]
  | some stored =>
    rw [revokeCredential_of_some revokedAt credentials did stored hget]
    simp only [inRegistry]
    cases hkey : (credential.prop "credentialSubject").prop "id" with
    | str key =>
      simp only [JsMap.getByValue]
      by_cases hk : key = did
      · subst hk
        rw [JsMap.get_set_self, hget]
        simp only [prop_revoked stored revokedAt "id" (by decide) (by decide)]
      · rw [JsMap.get_set_of_ne _ _ _ _ hk]
    | undefined => rfl
    | null => rfl
    | bool b => rfl
    | num n => rfl
    | arr items => rfl
    | obj props => rfl

theorem verifyCredential_revokeCredential (revokedAt : String) (credentials : CredentialStore)
    (did : String) (credential : JsVal) :
    CredentialService.verifyCredential
        (CredentialService.revokeCredential revokedAt credentials did).1 credential
      = CredentialService.verifyCredential credentials credential := by
  rw [verifyCredential_eq_verifyChecks, verifyCredential_eq_verifyChecks]
  simp only [verifyChecks, inRegistry_revokeCredential]

/-- C11 (the code at a failing input): Alice has no stored credential and eight
records, hence 80 percent, yet `issueCertificate` does not return: it stores
the credential and then throws the `TypeError` of `didService.issueCertificate`;
for no arguments at all does the call return a result. The credential the call
left in the store is accepted by `verifyCredential`. -/
theorem C11_issue_stores_then_throws :
    JsMap.get (CredentialService.initializeMockData sampleSeedEnv []) "did:iota:alice123" = none
    ∧ AttendanceService.calculateAttendancePercentage sampleEight "did:iota:alice123" = 80
    ∧ CredentialService.issueCertificate (sampleIssueEnv 0) DIDService.students sampleEight
          (CredentialService.initializeMockData sampleSeedEnv []) "did:iota:alice123"
        = (sampleIssued, .error (.typeError "didService.issueCertificate is not a function"))
    ∧ (∀ (env : IssueEnv) (students : List Student) (attendance : AttendanceStore)
        (credentials : CredentialStore) (did : String) (result : IssueResult),
        (CredentialService.issueCertificate env students attendance credentials did).2
          ≠ .ok result)
    ∧ CredentialService.verifyCredential sampleIssued sampleCredential
        = { valid := true, error := none, message := some "Credential verified successfully" } := by
  refine ⟨rfl, ?_, issueCertificate_sample, issueCertificate_never_returns, by decide⟩
  rw [calculateAttendancePercentage_eq]
  decide

/-- C12 fails as stated: the credential stored for Alice is accepted, its
subject is Alice, `revokeCredential` on Alice returns, and afterwards
`verifyCredential` still accepts the credential, both as it was presented
before and as it is now stored, with status `revoked`. -/
theorem C12_counterexample_revoked_still_valid :
    (CredentialService.verifyCredential sampleIssued sampleCredential).valid = true
    ∧ (sampleCredential.prop "credentialSubject").prop "id" = .str "did:iota:alice123"
    ∧ (CredentialService.revokeCredential "2023-11-15T08:00:00.000Z" sampleIssued
        "did:iota:alice123").2.toBool = true
    ∧ CredentialService.verifyCredential
        (CredentialService.revokeCredential "2023-11-15T08:00:00.000Z" sampleIssued
          "did:iota:alice123").1 sampleCredential
        = { valid := true, error := none, message := some "Credential verified successfully" }
    ∧ ((JsMap.get (CredentialService.revokeCredential "2023-11-15T08:00:00.000Z" sampleIssued
          "did:iota:alice123").1 "did:iota:alice123").getD []).prop "status" = .str "revoked"
    ∧ CredentialService.verifyCredential
        (CredentialService.revokeCredential "2023-11-15T08:00:00.000Z" sampleIssued
          "did:iota:alice123").1
        (.obj ((JsMap.get (CredentialService.revokeCredential "2023-11-15T08:00:00.000Z"
          sampleIssued "did:iota:alice123").1 "did:iota:alice123").getD []))
        = { valid := true, error := none, message := some "Credential verified successfully" } := by
  refine ⟨by decide, rfl, by decide, by decide, rfl, by decide⟩

/-- C12 (amended): `revokeCredential` sets the status of the stored credential
to `revoked` and its `revokedAt`, but `verifyCredential` does not read the
status: for every presented value it returns after the revocation what it
returned before, so an accepted credential stays accepted. -/
theorem C12_revocation_not_checked (revokedAt : String) (credentials : CredentialStore)
    (did : String) (credential : JsVal) :
    CredentialService.verifyCredential
        (CredentialService.revokeCredential revokedAt credentials did).1 credential
      = CredentialService.verifyCredential credentials credential
    ∧ JsMap.get (CredentialService.revokeCredential revokedAt credentials did).1 did
      = (credentials.get did).map (fun stored =>
          (stored.setProp "status" (.str "revoked")).setProp "revokedAt" (.str revokedAt))
    ∧ (JsMap.get (CredentialService.revokeCredential revokedAt credentials did).1 did).map
        (fun stored => stored.prop "status")
      = (credentials.get did).map (fun _ => JsVal.str "revoked") := by
  have hstore : JsMap.get (CredentialService.revokeCredential revokedAt credentials did).1 did
      = (credentials.get did).map (fun stored =>
          (stored.setProp "status" (.str "revoked")).setProp "revokedAt" (.str revokedAt)) := by
    cases hget : credentials.get did with
    | none => rw [revokeCredential_of_none revokedAt credentials did hget]; simp [hget]
    | some stored =>
      rw [revokeCredential_of_some revokedAt credentials did stored hget, JsMap.get_set_self]
      rfl
  refine ⟨verifyCredential_revokeCredential revokedAt credentials did credential, hstore, ?_⟩
  rw [hstore]
  cases credentials.get did with
  | none => rfl
  | some stored =>
    simp only [Option.map_some']
    rw [JsObject.prop_setProp_of_ne _ _ _ _ (by decide), JsObject.prop_setProp_self]

/-- C13: for a key without credential in the store, `revokeCredential` throws
`Credential not found` and leaves the credential store unchanged. -/
theorem C13_revoke_unknown (revokedAt : String) (credentials : CredentialStore) (did : String)
    (h : credentials.get did = none) :
    CredentialService.revokeCredential revokedAt credentials did
      = (credentials, .error (.error "Credential not found")) :=
  revokeCredential_of_none revokedAt credentials did h

/-- C13 on the seeded credential store, which has no credential for Alice. -/
theorem C13_revoke_unknown_witness :
    CredentialService.revokeCredential "2023-11-15T08:00:00.000Z"
        (CredentialService.initializeMockData sampleSeedEnv []) "did:iota:alice123"
      = (CredentialService.initializeMockData sampleSeedEnv [],
          .error (.error "Credential not found")) :=
  C13_revoke_unknown "2023-11-15T08:00:00.000Z"
    (CredentialService.initializeMockData sampleSeedEnv []) "did:iota:alice123" rfl

/-- C14 fails as stated: on the seeded credential a second `revokeCredential`
returns like the first, and the stored `revokedAt` becomes the time of the
second call. -/
theorem C14_counterexample_second_revoke_succeeds :
    (CredentialService.revokeCredential "2023-11-15T08:00:00.000Z"
        (CredentialService.initializeMockData sampleSeedEnv [])
        "did:iota:test:student1").2.toBool = true
    ∧ ((JsMap.get (CredentialService.revokeCredential "2023-11-15T08:00:00.000Z"
          (CredentialService.initializeMockData sampleSeedEnv [])
          "did:iota:test:student1").1 "did:iota:test:student1").getD []).prop "revokedAt"
        = .str "2023-11-15T08:00:00.000Z"
    ∧ (CredentialService.revokeCredential "2023-11-16T09:30:00.000Z"
        (CredentialService.revokeCredential "2023-11-15T08:00:00.000Z"
          (CredentialService.initializeMockData sampleSeedEnv [])
          "did:iota:test:student1").1 "did:iota:test:student1").2.toBool = true
    ∧ ((JsMap.get (CredentialService.revokeCredential "2023-11-16T09:30:00.000Z"
          (CredentialService.revokeCredential "2023-11-15T08:00:00.000Z"
            (CredentialService.initializeMockData sampleSeedEnv [])
            "did:iota:test:student1").1 "did:iota:test:student1").1
          "did:iota:test:student1").getD []).prop "revokedAt"
        = .str "2023-11-16T09:30:00.000Z" := by
  refine ⟨by decide, rfl, by decide, rfl⟩

/-- C14 (amended): a second `revokeCredential` on a stored credential returns
`success: true` like the first; the credential it returns and stores has status
`revoked` and the `revokedAt` of the second call, and every other property is
the one of the credential before the first call. -/
theorem C14_second_revoke_overwrites (first second : String) (credentials : CredentialStore)
    (did : String) (credential : JsObject) (h : credentials.get did = some credential) :
    ∃ result,
      (CredentialService.revokeCredential second
          (CredentialService.revokeCredential first credentials did).1 did).2 = .ok result
      ∧ result.success = true
      ∧ result.message = "Credential revoked successfully"
      ∧ JsMap.get (CredentialService.revokeCredential second
          (CredentialService.revokeCredential first credentials did).1 did).1 did
          = some result.credential
      ∧ result.credential.prop "status" = .str "revoked"
      ∧ result.credential.prop "revokedAt" = .str second
      ∧ ∀ name, name ≠ "status" → name ≠ "revokedAt" →
          result.credential.prop name = credential.prop name := by
  rw [revokeCredential_of_some first credentials did credential h]
  rw [revokeCredential_of_some second _ did _ (JsMap.get_set_self credentials did _)]
  refine ⟨_, rfl, rfl, rfl, JsMap.get_set_self _ did _, ?_, ?_, ?_⟩
  · rw [JsObject.prop_setProp_of_ne _ _ _ _ (by decide), JsObject.prop_setProp_self]
  · rw [JsObject.prop_setProp_self]
  · intro name hs hr
    rw [prop_revoked _ second name hs hr, prop_revoked _ first name hs hr]

/-- C14 on the seeded credential of `did:iota:test:student1`. -/
theorem C14_second_revoke_overwrites_witness :
    ∃ result,
      (CredentialService.revokeCredential "2023-11-16T09:30:00.000Z"
          (CredentialService.revokeCredential "2023-11-15T08:00:00.000Z"
            (CredentialService.initializeMockData sampleSeedEnv [])
            "did:iota:test:student1").1 "did:iota:test:student1").2 = .ok result
      ∧ result.success = true
      ∧ result.credential.prop "revokedAt" = .str "2023-11-16T09:30:00.000Z" := by
  obtain ⟨result, hres, hsucc, _, _, _, hat, _⟩ :=
    C14_second_revoke_overwrites "2023-11-15T08:00:00.000Z" "2023-11-16T09:30:00.000Z"
      (CredentialService.initializeMockData sampleSeedEnv []) "did:iota:test:student1"
      ((JsMap.get (CredentialService.initializeMockData sampleSeedEnv [])
        "did:iota:test:student1").getD []) rfl
  exact ⟨result, hres, hsucc, hat⟩

/-- C15 fails as stated: the credential of Alice is revoked and she has 80
percent, yet `issueCertificate` is rejected with `Certificate already issued`
and the revoked credential stays in the store. -/
theorem C15_counterexample_no_reissue :
    ((JsMap.get (CredentialService.revokeCredential "2023-11-15T08:00:00.000Z" sampleIssued
        "did:iota:alice123").1 "did:iota:alice123").getD []).prop "status" = .str "revoked"
    ∧ AttendanceService.calculateAttendancePercentage sampleEight "did:iota:alice123" = 80
    ∧ CredentialService.issueCertificate (sampleIssueEnv 1) DIDService.students sampleEight
        (CredentialService.revokeCredential "2023-11-15T08:00:00.000Z" sampleIssued
          "did:iota:alice123").1 "did:iota:alice123"
      = ((CredentialService.revokeCredential "2023-11-15T08:00:00.000Z" sampleIssued
          "did:iota:alice123").1, .error (.error "Certificate already issued")) := by
  refine ⟨rfl, ?_, ?_⟩
  · rw [calculateAttendancePercentage_eq]
    decide
  · exact issueCertificate_of_stored _ _ _ _ _
      ((JsMap.get (CredentialService.revokeCredential "2023-11-15T08:00:00.000Z" sampleIssued
        "did:iota:alice123").1 "did:iota:alice123").getD []) rfl

/-- C15 (amended): for a DID whose stored credential has been revoked,
`issueCertificate` is rejected with `Certificate already issued`, whatever the
attendance, and the store keeps the revoked credential: the guard tests the
presence of a credential, not its status. -/
theorem C15_revoked_blocks_issuance (env : IssueEnv) (students : List Student)
    (attendance : AttendanceStore) (credentials : CredentialStore) (did revokedAt : String)
    (credential : JsObject) (h : credentials.get did = some credential) :
    CredentialService.issueCertificate env students attendance
        (CredentialService.revokeCredential revokedAt credentials did).1 did
      = ((CredentialService.revokeCredential revokedAt credentials did).1,
          .error (.error "Certificate already issued"))
    ∧ JsMap.get (CredentialService.revokeCredential revokedAt credentials did).1 did
      = some ((credential.setProp "status" (.str "revoked")).setProp "revokedAt"
          (.str revokedAt)) := by
  have hget : JsMap.get (CredentialService.revokeCredential revokedAt credentials did).1 did
      = some ((credential.setProp "status" (.str "revoked")).setProp "revokedAt"
          (.str revokedAt)) := by
    rw [revokeCredential_of_some revokedAt credentials did credential h]
    exact JsMap.get_set_self credentials did _
  exact ⟨issueCertificate_of_stored env students attendance _ did _ hget, hget⟩

/-- C15 on the revoked credential of Alice, who has 80 percent. -/
theorem C15_revoked_blocks_issuance_witness :
    CredentialService.issueCertificate (sampleIssueEnv 1) DIDService.students sampleEight
        (CredentialService.revokeCredential "2023-11-15T08:00:00.000Z" sampleIssued
          "did:iota:alice123").1 "did:iota:alice123"
      = ((CredentialService.revokeCredential "2023-11-15T08:00:00.000Z" sampleIssued
          "did:iota:alice123").1, .error (.error "Certificate already issued")) :=
  (C15_revoked_blocks_issuance (sampleIssueEnv 1) DIDService.students sampleEight sampleIssued
    "did:iota:alice123" "2023-11-15T08:00:00.000Z" sampleCredentialObject
    (JsMap.get_set_self _ _ _)).1

/-- C16 fails as stated: on `null` and on `undefined` the first check fails, yet
the reason returned is `Verification failed`, which is none of the three
reasons of the checks. -/
theorem C16_counterexample_null :
    structureOk .null = false
    ∧ CredentialService.verifyCredential sampleIssued .null
      = { valid := false, error := some "Verification failed", message := none }
    ∧ structureOk .undefined = false
    ∧ CredentialService.verifyCredential sampleIssued .undefined
      = { valid := false, error := some "Verification failed", message := none } := by
  decide

/-- C16 (amended): on `null` and `undefined`, `verifyCredential` returns
`valid: false` with `Verification failed`; on every other value it returns the
reason of the first failing check in the order (1) `id`, `type`, `issuer`,
`credentialSubject` all truthy, (2) `proof` and its `signature` truthy, (3) the
store holds under `credentialSubject.id` a credential with a strictly equal
`id`; and it returns `valid: true` exactly when the value is neither `null` nor
`undefined` and the three checks pass. -/
theorem C16_verify_is_the_cascade (credentials : CredentialStore) (credential : JsVal) :
    CredentialService.verifyCredential credentials credential
      = verifyChecks credentials credential
    ∧ ((CredentialService.verifyCredential credentials credential).valid = true
        ↔ (credential.isNullish = false ∧ structureOk credential = true
            ∧ proofOk credential = true ∧ inRegistry credentials credential = true)) := by
  refine ⟨verifyCredential_eq_verifyChecks credentials credential, ?_⟩
  rw [verifyCredential_eq_verifyChecks]
  simp only [verifyChecks]
  cases credential.isNullish <;> cases structureOk credential <;> cases proofOk credential <;>
    cases inRegistry credentials credential <;> simp

/-- C17 fails as stated: `sampleForged` has the `id` and subject DID of the
credential issued to Alice, another signature and another attendance claim,
and `verifyCredential` accepts it. -/
theorem C17_counterexample_forged_accepted :
    CredentialService.verifyCredential sampleIssued sampleForged
      = { valid := true, error := none, message := some "Credential verified successfully" }
    ∧ sampleForged.prop "id" = sampleCredential.prop "id"
    ∧ (sampleForged.prop "credentialSubject").prop "id" = .str "did:iota:alice123"
    ∧ (sampleCredential.prop "credentialSubject").prop "id" = .str "did:iota:alice123"
    ∧ (sampleCredential.prop "proof").prop "signature" = .str "00ff"
    ∧ (sampleForged.prop "proof").prop "signature" = .str "forged"
    ∧ (sampleCredential.prop "credentialSubject").prop "attendancePercentage" = .num 80
    ∧ (sampleForged.prop "credentialSubject").prop "attendancePercentage" = .num 100 := by
  refine ⟨by decide, rfl, rfl, rfl, rfl, rfl, rfl, rfl⟩

/-- C17 (amended): `verifyCredential` performs no signature check. Its result
is determined by whether the presented value is `null` or `undefined`, by the
truthiness of `type`, `issuer`, `credentialSubject`, `proof` and
`proof.signature`, and by the values of `id` and `credentialSubject.id`: two
presented values that agree on these get the same result, whatever their
signatures and their other claims. -/
theorem C17_verify_reads_no_signature (credentials : CredentialStore) (a b : JsVal)
    (hnull : a.isNullish = b.isNullish)
    (hid : a.prop "id" = b.prop "id")
    (htype : (a.prop "type").truthy = (b.prop "type").truthy)
    (hissuer : (a.prop "issuer").truthy = (b.prop "issuer").truthy)
    (hsubject : (a.prop "credentialSubject").truthy = (b.prop "credentialSubject").truthy)
    (hsubjectId : (a.prop "credentialSubject").prop "id" = (b.prop "credentialSubject").prop "id")
    (hproof : (a.prop "proof").truthy = (b.prop "proof").truthy)
    (hsignature : ((a.prop "proof").prop "signature").truthy
      = ((b.prop "proof").prop "signature").truthy) :
    CredentialService.verifyCredential credentials a
      = CredentialService.verifyCredential credentials b := by
  rw [verifyCredential_eq_verifyChecks, verifyCredential_eq_verifyChecks]
  simp only [verifyChecks, structureOk, proofOk, inRegistry, hnull, hid, htype, hissuer,
    hsubject, hsubjectId, hproof, hsignature]

/-- C17 on the credential issued to Alice and the forged one. -/
theorem C17_verify_reads_no_signature_witness :
    CredentialService.verifyCredential sampleIssued sampleCredential
      = CredentialService.verifyCredential sampleIssued sampleForged :=
  C17_verify_reads_no_signature sampleIssued sampleCredential sampleForged
    rfl rfl rfl rfl rfl rfl rfl rfl

/-! ### The DID service -/

theorem getStudentByDID_success_iff (students : List Student) (did : String) :
    (DIDService.getStudentByDID students did).success = true
      ↔ did ∈ students.map (fun s => s.did) := by
  simp only [DIDService.getStudentByDID]
  cases hfind : students.find? (fun s => decide (s.did = did)) with
  | none =>
    rw [List.find?_eq_none] at hfind
    simp only [Bool.false_eq_true, List.mem_map, false_iff, not_exists, not_and]
    intro s hs hdid
    exact absurd (by simpa using hdid) (hfind s hs)
  | some s =>
    have hmem := List.mem_of_find?_eq_some hfind
    have hdid := List.find?_some hfind
    simp only [decide_eq_true_eq] at hdid
    simp only [List.mem_map, true_iff]
    exact ⟨s, hmem, hdid⟩

theorem getStudentByDID_not_found_iff (students : List Student) (did : String) :
    DIDService.getStudentByDID students did
        = { success := false, error := some "Student not found", student := none }
      ↔ ∀ s ∈ students, s.did ≠ did := by
  simp only [DIDService.getStudentByDID]
  cases hfind : students.find? (fun s => decide (s.did = did)) with
  | none =>
    rw [List.find?_eq_none] at hfind
    simp only [true_iff]
    intro s hs
    simpa using hfind s hs
  | some s =>
    have hmem := List.mem_of_find?_eq_some hfind
    have hdid := List.find?_some hfind
    simp only [decide_eq_true_eq] at hdid
    constructor
    · intro h
      simp at h
    · intro h
      exact absurd hdid (h s hmem)

/-- The first student with the DID is the one found. -/
theorem find?_first (pre post : List Student) (student : Student) (did : String)
    (hpre : ∀ s ∈ pre, s.did ≠ did) (hdid : student.did = did) :
    (pre ++ student :: post).find? (fun s => decide (s.did = did)) = some student := by
  induction pre with
  | nil => simp [hdid]
  | cons a rest ih =>
    have ha : a.did ≠ did := hpre a (List.mem_cons_self a rest)
    have hrest : ∀ s ∈ rest, s.did ≠ did := fun s hs => hpre s (List.mem_cons_of_mem a hs)
    simp [List.find?, ha, ih hrest]

/-- C19: `getStudentByDID` returns `success: false` with `Student not found`
exactly when no registered student has the DID; otherwise it returns
`success: true` with the `id`, `name`, `email`, `did`, `nfcUid`, `department`
and `enrollmentDate` of the first student of the array whose `did` is the
argument. -/
theorem C19_lookup_by_did (students : List Student) (did : String) :
    (DIDService.getStudentByDID students did
        = { success := false, error := some "Student not found", student := none }
      ↔ ∀ s ∈ students, s.did ≠ did)
    ∧ ((DIDService.getStudentByDID students did).success = false
      ↔ ∀ s ∈ students, s.did ≠ did)
    ∧ (∀ (pre post : List Student) (student : Student),
        students = pre ++ student :: post → (∀ s ∈ pre, s.did ≠ did) → student.did = did →
        DIDService.getStudentByDID students did
          = { success := true, error := none,
              student := some
                { id := student.id, name := student.name, email := student.email,
                  did := student.did, nfcUid := student.nfcUid,
                  department := student.department,
                  enrollmentDate := student.enrollmentDate } }) := by
  refine ⟨getStudentByDID_not_found_iff students did, ?_, ?_⟩
  · have h := getStudentByDID_success_iff students did
    constructor
    · intro hfalse s hs hdid
      have : (DIDService.getStudentByDID students did).success = true :=
        h.mpr (List.mem_map.mpr ⟨s, hs, hdid⟩)
      rw [hfalse] at this
      exact Bool.false_ne_true this
    · intro hnone
      cases hsucc : (DIDService.getStudentByDID students did).success with
      | false => rfl
      | true =>
        obtain ⟨s, hs, hdid⟩ := List.mem_map.mp (h.mp hsucc)
        exact absurd hdid (hnone s hs)
  · intro pre post student hsplit hpre hdid
    subst hsplit
    simp only [DIDService.getStudentByDID, find?_first pre post student did hpre hdid]

/-- C19 on the seeded students: Bob is found behind Alice, and an unknown DID
is reported as not found. -/
theorem C19_lookup_by_did_witness :
    DIDService.getStudentByDID DIDService.students "did:iota:bob456"
      = { success := true, error := none,
          student := some
            { id := "2", name := "Bob Smith", email := "bob@university.edu",
              did := "did:iota:bob456", nfcUid := "E5F6G7H8",
              department := "Mathematics", enrollmentDate := "2024-01-20" } }
    ∧ DIDService.getStudentByDID DIDService.students "did:iota:nobody"
      = { success := false, error := some "Student not found", student := none } :=
  ⟨(C19_lookup_by_did DIDService.students "did:iota:bob456").2.2
      [ { id := "1", name := "Alice Johnson", email := "alice@university.edu",
          did := "did:iota:alice123", nfcUid := "A1B2C3D4",
          department := "Computer Science", enrollmentDate := "2024-01-15" } ]
      [ { id := "3", name := "Carol Davis", email := "carol@university.edu",
          did := "did:iota:carol789", nfcUid := "I9J0K1L2",
          department := "Physics", enrollmentDate := "2024-01-25" } ]
      { id := "2", name := "Bob Smith", email := "bob@university.edu",
        did := "did:iota:bob456", nfcUid := "E5F6G7H8",
        department := "Mathematics", enrollmentDate := "2024-01-20" }
      rfl (by decide) rfl,
   (C19_lookup_by_did DIDService.students "did:iota:nobody").1.mpr (by decide)⟩

/-- C18 fails as stated: the NFC UID `A1B2C3D4` is already the one of Alice, yet
`createDID` returns `success: true` and pushes a fourth student, the second with
that NFC UID. -/
theorem C18_counterexample_duplicate_nfc :
    (DIDService.getStudentByNFCUid DIDService.initialState.students "A1B2C3D4").success = true
    ∧ (DIDService.createDID sampleCreateEnv sampleDuplicate DIDService.initialState).2.success
        = true
    ∧ (DIDService.createDID sampleCreateEnv sampleDuplicate DIDService.initialState).2.error
        = none
    ∧ (DIDService.createDID sampleCreateEnv sampleDuplicate
        DIDService.initialState).1.students.length = 4
    ∧ ((DIDService.createDID sampleCreateEnv sampleDuplicate
        DIDService.initialState).1.students.filter
          (fun s => s.nfcUid = "A1B2C3D4")).length = 2 := by
  decide

/-- C18 (amended): `createDID` performs no duplicate check. Whatever the NFC UID
of its input, it returns `success: true` without error and appends one student
with that NFC UID, a fresh DID and its document to the array; the document is
the one returned, it is stored under the DID in the map `dids`, and its `id` is
the DID. -/
theorem C18_createDID_always_registers (env : CreateEnv) (studentData : StudentData)
    (state : DidState) :
    (DIDService.createDID env studentData state).2.success = true
    ∧ (DIDService.createDID env studentData state).2.error = none
    ∧ (DIDService.createDID env studentData state).2.did = some ("did:iota:" ++ env.didBytes)
    ∧ ∃ student : Student,
        (DIDService.createDID env studentData state).1.students = state.students ++ [student]
        ∧ (DIDService.createDID env studentData state).2.student = some student
        ∧ student.nfcUid = studentData.nfcUid
        ∧ student.did = "did:iota:" ++ env.didBytes
        ∧ student.id = env.uuid
        ∧ ∃ document : DidDocument,
            student.didDocument = some document
            ∧ (DIDService.createDID env studentData state).2.document = some document
            ∧ JsMap.get (DIDService.createDID env studentData state).1.dids
                ("did:iota:" ++ env.didBytes) = some document
            ∧ document.id = "did:iota:" ++ env.didBytes
            ∧ document.controller = "did:iota:" ++ env.didBytes :=
  ⟨rfl, rfl, rfl, _, rfl, rfl, rfl, rfl, rfl, _, rfl, rfl,
    JsMap.get_set_self state.dids _ _, rfl, rfl⟩

theorem map_did_set (students : List Student) (index : Nat) (old new : Student)
    (hget : students.get? index = some old) (hdid : new.did = old.did) :
    (students.set index new).map (fun s => s.did) = students.map (fun s => s.did) := by
  induction students generalizing index with
  | nil => simp at hget
  | cons a rest ih =>
    cases index with
    | zero =>
      simp only [List.get?_cons_zero, Option.some.injEq] at hget
      subst hget
      simp [hdid]
    | succ n =>
      simp only [List.get?_cons_succ] at hget
      simp [ih n hget]

theorem Student.merge_did (student : Student) (updates : StudentUpdates)
    (h : updates.did = none) : (student.merge updates).did = student.did := by
  simp [Student.merge, h]

/-- An update that carries no `did` leaves the registered DIDs as they are. -/
theorem updateStudent_dids (students : List Student) (studentId : String)
    (updates : StudentUpdates) (h : updates.did = none) :
    (DIDService.updateStudent students studentId updates).1.map (fun s => s.did)
      = students.map (fun s => s.did) := by
  simp only [DIDService.updateStudent]
  split
  · rfl
  · split
    · rfl
    · rename_i student hget
      exact map_did_set students _ student _ hget (Student.merge_did student updates h)

/-- A call that keeps identities keeps every registered DID registered. -/
theorem apply_keeps_dids (op : DidOp) (state : DidState) (h : op.keepsIdentities = true)
    (did : String) (hreg : did ∈ state.students.map (fun s => s.did)) :
    did ∈ (op.apply state).students.map (fun s => s.did) := by
  cases op with
  | createDID env studentData =>
    simp only [DidOp.apply, DIDService.createDID, List.map_append, List.mem_append]
    exact Or.inl hreg
  | updateStudent studentId updates =>
    simp only [DidOp.keepsIdentities, Option.isNone_iff_eq_none] at h
    simp only [DidOp.apply, updateStudent_dids _ _ _ h]
    exact hreg
  | deleteStudent studentId => simp [DidOp.keepsIdentities] at h
  | getAllStudents => exact hreg
  | getStudentByDID other => exact hreg
  | getStudentByNFCUid nfcUid => exact hreg
  | verifyDID other => exact hreg
  | getDIDDocument other => exact hreg

theorem run_keeps_dids (ops : List DidOp) :
    ∀ (state : DidState), (∀ op ∈ ops, op.keepsIdentities = true) →
      ∀ did, did ∈ state.students.map (fun s => s.did) →
        did ∈ (DidOp.run ops state).students.map (fun s => s.did) := by
  induction ops with
  | nil => intro state _ did h; exact h
  | cons op rest ih =>
    intro state hall did h
    have hop := hall op (List.mem_cons_self op rest)
    have hrest : ∀ o ∈ rest, o.keepsIdentities = true :=
      fun o ho => hall o (List.mem_cons_of_mem op ho)
    simp only [DidOp.run, List.foldl_cons]
    exact ih (op.apply state) hrest did (apply_keeps_dids op state hop did h)

/-- C20 fails as stated: after `createDID` has registered a student, the lookup
of the new DID succeeds; after `deleteStudent` on the id of that student, or
after an `updateStudent` that gives the student another `did`, it does not. -/
theorem C20_counterexample_delete_unregisters :
    (DIDService.getStudentByDID
        (DIDService.createDID sampleCreateEnv sampleDuplicate DIDService.initialState).1.students
        "did:iota:00112233445566778899aabbccddeeff").success = true
    ∧ (DIDService.getStudentByDID
        (DidOp.run [DidOp.deleteStudent "3f2b8c1e-5d4a-4e6f-9a7b-0c1d2e3f4a5b"]
          (DIDService.createDID sampleCreateEnv sampleDuplicate
            DIDService.initialState).1).students
        "did:iota:00112233445566778899aabbccddeeff").success = false
    ∧ (DIDService.getStudentByDID
        (DidOp.run [DidOp.updateStudent "3f2b8c1e-5d4a-4e6f-9a7b-0c1d2e3f4a5b"
            { did := some "did:iota:other" }]
          (DIDService.createDID sampleCreateEnv sampleDuplicate
            DIDService.initialState).1).students
        "did:iota:00112233445566778899aabbccddeeff").success = false := by
  decide

/-- C20 (amended): once `createDID` has registered a student under a DID, the
lookup of that DID succeeds after every later sequence of `DIDService` calls
that contains no `deleteStudent` and no `updateStudent` whose updates carry a
`did`. -/
theorem C20_identity_kept_without_delete (env : CreateEnv) (studentData : StudentData)
    (state : DidState) (ops : List DidOp) (hops : ∀ op ∈ ops, op.keepsIdentities = true) :
    (DIDService.createDID env studentData state).2.did = some ("did:iota:" ++ env.didBytes)
    ∧ (DIDService.getStudentByDID
        (DidOp.run ops (DIDService.createDID env studentData state).1).students
        ("did:iota:" ++ env.didBytes)).success = true := by
  refine ⟨rfl, ?_⟩
  rw [getStudentByDID_success_iff]
  apply run_keeps_dids ops _ hops
  simp [DIDService.createDID, MockIotaIdentity.createDid]

/-- C20 on the seeded state: a registration followed by a read, an update of
the name and another registration. -/
theorem C20_identity_kept_without_delete_witness :
    (DIDService.getStudentByDID
        (DidOp.run
          [ DidOp.getAllStudents,
            DidOp.updateStudent "3f2b8c1e-5d4a-4e6f-9a7b-0c1d2e3f4a5b" { name := some "David" },
            DidOp.createDID sampleCreateEnv sampleDuplicate ]
          (DIDService.createDID sampleCreateEnv sampleDuplicate
            DIDService.initialState).1).students
        ("did:iota:" ++ sampleCreateEnv.didBytes)).success = true :=
  (C20_identity_kept_without_delete sampleCreateEnv sampleDuplicate DIDService.initialState
    [ DidOp.getAllStudents,
      DidOp.updateStudent "3f2b8c1e-5d4a-4e6f-9a7b-0c1d2e3f4a5b" { name := some "David" },
      DidOp.createDID sampleCreateEnv sampleDuplicate ]
    (by decide)).2

/-! ### Status, ids, eligibility and atomicity of issuance -/

/-- A credential built by `createVerifiableCredential` has no `status`. -/
theorem createVerifiableCredential_status (env : IssueEnv) (did : String)
    (student : StudentLookup) (attendance : AttendanceView) :
    (CredentialService.createVerifiableCredential env did student attendance).prop "status"
      = .undefined := by
  simp [CredentialService.createVerifiableCredential, JsObject.prop, JsMap.get]

/-- C21 (the code at a failing input): the credential `issueCertificate` stored
for Alice has no `status` property, as every credential built by
`createVerifiableCredential`; `getCredentialStats` then counts two credentials,
one valid (the seeded one) and none revoked, so valid plus revoked is not the
total. -/
theorem C21_issued_credential_has_no_status :
    (CredentialService.issueCertificate (sampleIssueEnv 0) DIDService.students sampleEight
        (CredentialService.initializeMockData sampleSeedEnv []) "did:iota:alice123").1
      = sampleIssued
    ∧ ((JsMap.get sampleIssued "did:iota:alice123").getD []).prop "status" = .undefined
    ∧ (∃ stats, CredentialService.getCredentialStats "2023-11-15T08:00:00.000Z" sampleIssued
          = .ok stats
        ∧ stats.totalCredentials = 2 ∧ stats.validCredentials = 1
        ∧ stats.revokedCredentials = 0
        ∧ stats.validCredentials + stats.revokedCredentials ≠ stats.totalCredentials)
    ∧ ∀ (env : IssueEnv) (did : String) (student : StudentLookup) (attendance : AttendanceView),
        (CredentialService.createVerifiableCredential env did student attendance).prop "status"
          = .undefined := by
  refine ⟨?_, rfl, ⟨_, rfl, by decide, by decide, by decide, by decide⟩,
    createVerifiableCredential_status⟩
  rw [issueCertificate_sample]

/-- Any failure of `issueCertificate` other than the `TypeError` of
`didService.issueCertificate` leaves the credential store unchanged. -/
theorem issueCertificate_store_of_guard (env : IssueEnv) (students : List Student)
    (attendance : AttendanceStore) (credentials : CredentialStore) (did : String)
    (h : (CredentialService.issueCertificate env students attendance credentials did).2
      ≠ .error (.typeError "didService.issueCertificate is not a function")) :
    (CredentialService.issueCertificate env students attendance credentials did).1
      = credentials := by
  revert h
  simp only [CredentialService.issueCertificate, StudentLookup.truthy_eq_true,
    AttendanceService.getAttendancePercentage, DIDService.issueCertificate]
  split
  · intro _; rfl
  · split
    · intro _; rfl
    · split
      · intro _; rfl
      · split
        · intro _; rfl
        · intro h; exact absurd rfl h

/-- C29 (the code at a failing input): `issueCertificate` for Alice throws, and
the credential store it leaves behind holds a credential for Alice that the
store before the call did not hold. Every failure other than this `TypeError`
leaves the store unchanged. -/
theorem C29_failed_issue_changes_store :
    (CredentialService.issueCertificate (sampleIssueEnv 0) DIDService.students sampleEight
        (CredentialService.initializeMockData sampleSeedEnv []) "did:iota:alice123").2
      = .error (.typeError "didService.issueCertificate is not a function")
    ∧ JsMap.get (CredentialService.initializeMockData sampleSeedEnv []) "did:iota:alice123"
      = none
    ∧ JsMap.get (CredentialService.issueCertificate (sampleIssueEnv 0) DIDService.students
        sampleEight (CredentialService.initializeMockData sampleSeedEnv [])
        "did:iota:alice123").1 "did:iota:alice123" = some sampleCredentialObject
    ∧ (CredentialService.issueCertificate (sampleIssueEnv 0) DIDService.students sampleEight
        (CredentialService.initializeMockData sampleSeedEnv []) "did:iota:alice123").1
      ≠ CredentialService.initializeMockData sampleSeedEnv []
    ∧ ∀ (env : IssueEnv) (students : List Student) (attendance : AttendanceStore)
        (credentials : CredentialStore) (did : String),
        (CredentialService.issueCertificate env students attendance credentials did).2
            ≠ .error (.typeError "didService.issueCertificate is not a function") →
        (CredentialService.issueCertificate env students attendance credentials did).1
          = credentials := by
  rw [issueCertificate_sample]
  refine ⟨rfl, rfl, rfl, ?_, issueCertificate_store_of_guard⟩
  intro h
  have hget := congrArg (fun store => (JsMap.get store "did:iota:alice123").isSome) h
  revert hget
  decide

/-- No segment that `splitChars` yields contains the separator. -/
theorem splitChars_no_sep (sep : Char) (cs : List Char) :
    ∀ seg ∈ splitChars sep cs, sep ∉ seg := by
  induction cs with
  | nil =>
    intro seg hseg
    simp only [splitChars, List.mem_singleton] at hseg
    subst hseg
    exact List.not_mem_nil sep
  | cons c rest ih =>
    intro seg hseg
    simp only [splitChars] at hseg
    by_cases hc : c = sep
    · simp only [hc, if_true, List.mem_cons] at hseg
      rcases hseg with h | h
      · subst h; exact List.not_mem_nil sep
      · exact ih seg h
    · simp only [hc, if_false] at hseg
      cases hsplit : splitChars sep rest with
      | nil =>
        simp only [hsplit, List.mem_singleton] at hseg
        subst hseg
        simp only [List.mem_singleton]
        exact fun h => hc h.symm
      | cons first others =>
        simp only [hsplit, List.mem_cons] at hseg
        rcases hseg with h | h
        · subst h
          have hfirst := ih first (by rw [hsplit]; exact List.mem_cons_self _ _)
          simp only [List.mem_cons, not_or]
          exact ⟨fun h => hc h.symm, hfirst⟩
        · exact ih seg (by rw [hsplit]; exact List.mem_cons_of_mem _ h)

theorem splitChars_ne_nil (sep : Char) (cs : List Char) : splitChars sep cs ≠ [] := by
  cases cs with
  | nil => simp [splitChars]
  | cons c rest =>
    simp only [splitChars]
    split
    · simp
    · split <;> simp

/-- The text after the last colon contains no colon. -/
theorem lastSegment_no_colon (did : String) : ':' ∉ (lastSegment did).data := by
  simp only [lastSegment]
  have hne := splitChars_ne_nil ':' did.data
  have hmem : (splitChars ':' did.data).getLastD [] ∈ splitChars ':' did.data := by
    rw [List.getLastD_eq_getLast?, List.getLast?_eq_getLast _ hne]
    exact List.getLast_mem hne
  exact splitChars_no_sep ':' did.data _ hmem

/-- Two texts without the separator, each followed by the separator and a
rest, are equal when the wholes are. -/
theorem eq_of_append_sep (sep : Char) (a b r s : List Char) (ha : sep ∉ a) (hb : sep ∉ b)
    (h : a ++ sep :: r = b ++ sep :: s) : a = b := by
  induction a generalizing b with
  | nil =>
    cases b with
    | nil => rfl
    | cons y ys =>
      simp only [List.nil_append, List.cons_append, List.cons.injEq] at h
      exact absurd (h.1 ▸ List.mem_cons_self y ys) hb
  | cons x xs ih =>
    cases b with
    | nil =>
      simp only [List.nil_append, List.cons_append, List.cons.injEq] at h
      exact absurd (h.1 ▸ List.mem_cons_self x xs) ha
    | cons y ys =>
      simp only [List.cons_append, List.cons.injEq] at h
      have hxs : sep ∉ xs := fun hm => ha (List.mem_cons_of_mem x hm)
      have hys : sep ∉ ys := fun hm => hb (List.mem_cons_of_mem y hm)
      rw [h.1, ih ys hxs hys h.2]

/-- The `id` of a credential built by `createVerifiableCredential`. -/
theorem createVerifiableCredential_id (env : IssueEnv) (did : String)
    (student : StudentLookup) (attendance : AttendanceView) :
    (CredentialService.createVerifiableCredential env did student attendance).prop "id"
      = .str ("credential:attendance:" ++ lastSegment did ++ ":" ++ toString env.now) := by
  simp [CredentialService.createVerifiableCredential, JsObject.prop, JsMap.get]

/-- C22 fails as stated: `did:iota:test:student1` and `did:iota:prod:student1`
are two different DIDs, and the credentials built for them at the same
`Date.now()` have the same `id`. -/
theorem C22_counterexample_same_id :
    sampleTwinDids.1 ≠ sampleTwinDids.2
    ∧ (CredentialService.createVerifiableCredential (sampleIssueEnv 0) sampleTwinDids.1
        (DIDService.getStudentByDID DIDService.students sampleTwinDids.1) sampleView).prop "id"
      = (CredentialService.createVerifiableCredential (sampleIssueEnv 0) sampleTwinDids.2
        (DIDService.getStudentByDID DIDService.students sampleTwinDids.2) sampleView).prop "id"
    ∧ (CredentialService.createVerifiableCredential (sampleIssueEnv 0) sampleTwinDids.1
        (DIDService.getStudentByDID DIDService.students sampleTwinDids.1) sampleView).prop "id"
      = .str "credential:attendance:student1:1700000000000" := by
  refine ⟨by decide, ?_, ?_⟩
  · rw [createVerifiableCredential_id, createVerifiableCredential_id]
    have h : lastSegment sampleTwinDids.1 = lastSegment sampleTwinDids.2 := by decide
    rw [h]
  · rw [createVerifiableCredential_id]
    have h : "credential:attendance:" ++ lastSegment sampleTwinDids.1 ++ ":"
        ++ toString (sampleIssueEnv 0).now = "credential:attendance:student1:1700000000000" := by
      decide
    rw [h]

/-- C22 (amended): the `id` is built from the text after the last colon of the
DID and from `Date.now()`. Two credentials built for DIDs whose last segments
differ have different ids, whatever the times; two credentials built for DIDs
with the same last segment at the same `Date.now()` have the same id, also
when the DIDs differ. -/
theorem C22_id_from_last_segment (env₁ env₂ : IssueEnv) (did₁ did₂ : String)
    (student₁ student₂ : StudentLookup) (attendance₁ attendance₂ : AttendanceView) :
    (lastSegment did₁ ≠ lastSegment did₂ →
      (CredentialService.createVerifiableCredential env₁ did₁ student₁ attendance₁).prop "id"
        ≠ (CredentialService.createVerifiableCredential env₂ did₂ student₂ attendance₂).prop "id")
    ∧ (lastSegment did₁ = lastSegment did₂ → env₁.now = env₂.now →
      (CredentialService.createVerifiableCredential env₁ did₁ student₁ attendance₁).prop "id"
        = (CredentialService.createVerifiableCredential env₂ did₂ student₂ attendance₂).prop
            "id") := by
  rw [createVerifiableCredential_id, createVerifiableCredential_id]
  constructor
  · intro hne heq
    apply hne
    simp only [JsVal.str.injEq] at heq
    have hdata := congrArg String.data heq
    simp only [String.data_append, List.append_assoc] at hdata
    have htail := List.append_cancel_left hdata
    simp only [List.singleton_append] at htail
    have hseg := eq_of_append_sep ':' _ _ _ _ (lastSegment_no_colon did₁)
      (lastSegment_no_colon did₂) htail
    exact String.ext hseg
  · intro hseg hnow
    rw [hseg, hnow]

/-- C22 on the seeded DIDs of student1 and student2, and on the two DIDs that
share the segment student1. -/
theorem C22_id_from_last_segment_witness :
    (CredentialService.createVerifiableCredential (sampleIssueEnv 0) "did:iota:test:student1"
        (DIDService.getStudentByDID DIDService.students "did:iota:test:student1")
        sampleView).prop "id"
      ≠ (CredentialService.createVerifiableCredential (sampleIssueEnv 0)
        "did:iota:test:student2"
        (DIDService.getStudentByDID DIDService.students "did:iota:test:student2")
        sampleView).prop "id"
    ∧ (CredentialService.createVerifiableCredential (sampleIssueEnv 0) sampleTwinDids.1
        (DIDService.getStudentByDID DIDService.students sampleTwinDids.1) sampleView).prop "id"
      = (CredentialService.createVerifiableCredential (sampleIssueEnv 0) sampleTwinDids.2
        (DIDService.getStudentByDID DIDService.students sampleTwinDids.2) sampleView).prop
          "id" :=
  ⟨(C22_id_from_last_segment (sampleIssueEnv 0) (sampleIssueEnv 0) "did:iota:test:student1"
      "did:iota:test:student2" _ _ sampleView sampleView).1 (by decide),
   (C22_id_from_last_segment (sampleIssueEnv 0) (sampleIssueEnv 0) sampleTwinDids.1
      sampleTwinDids.2 _ _ sampleView sampleView).2 (by decide) rfl⟩

/-- With valid time values, `checkEligibility` returns. -/
theorem checkEligibility_of_timeValues (students : List Student) (attendance : AttendanceStore)
    (credentials : CredentialStore) (did : String) (h : TimeValues (recordsOf attendance did)) :
    CredentialService.checkEligibility students attendance credentials did
      = .ok { did := did,
              student := { name := .undefined, email := .undefined },
              attendancePercentage :=
                AttendanceService.calculateAttendancePercentage attendance did,
              hasCertificate := (credentials.get did).isSome,
              eligible :=
                decide (AttendanceService.calculateAttendancePercentage attendance did ≥ 80)
                  && !(credentials.get did).isSome,
              requiredAttendance := 80,
              sessionsNeeded := max 0 (8 - ((recordsOf attendance did).length : Int)) } := by
  obtain ⟨hname, hemail, _, _⟩ :=
    StudentLookup.prop_undefined (DIDService.getStudentByDID students did)
  simp only [CredentialService.checkEligibility, StudentLookup.truthy_eq_true,
    AttendanceService.getAttendancePercentage,
    getAttendance_of_timeValues students attendance did h, hname, hemail, Bool.not_true,
    Bool.false_eq_true, if_false]

/-- C26: when the timestamps of the DID are valid time values, `checkEligibility`
returns; it reports `eligible: true` exactly when the DID has no stored
credential and at least 80 percent, which is exactly when `issueCertificate` is
rejected neither with `Certificate already issued` nor for insufficient
attendance; and it reports `sessionsNeeded` as the maximum of 0 and 8 minus the
number of records, which is 0 exactly when the percentage is at least 80. -/
theorem C26_eligibility_agrees_with_gates (env : IssueEnv) (students : List Student)
    (attendance : AttendanceStore) (credentials : CredentialStore) (did : String)
    (hvalid : TimeValues (recordsOf attendance did)) :
    ∃ result, CredentialService.checkEligibility students attendance credentials did
        = .ok result
      ∧ (result.eligible = true
          ↔ (credentials.get did = none
              ∧ 80 ≤ AttendanceService.calculateAttendancePercentage attendance did))
      ∧ (result.eligible = true
          ↔ ((CredentialService.issueCertificate env students attendance credentials did).2
                ≠ .error (.error "Certificate already issued")
              ∧ (CredentialService.issueCertificate env students attendance credentials did).2
                ≠ .error (.error
                    "Insufficient attendance for certificate (minimum 80% required)")))
      ∧ result.sessionsNeeded = max 0 (8 - ((recordsOf attendance did).length : Int))
      ∧ (result.sessionsNeeded = 0
          ↔ 80 ≤ AttendanceService.calculateAttendancePercentage attendance did) := by
  refine ⟨_, checkEligibility_of_timeValues students attendance credentials did hvalid,
    ?_, ?_, rfl, ?_⟩
  · cases hget : credentials.get did <;> simp [hget]
  · cases hget : credentials.get did with
    | some stored =>
      rw [issueCertificate_of_stored env students attendance credentials did stored hget]
      simp
    | none =>
      by_cases hhigh : 80 ≤ AttendanceService.calculateAttendancePercentage attendance did
      · rw [issueCertificate_of_eligible env students attendance credentials did hget hhigh
          hvalid]
        simp [hhigh]
      · rw [issueCertificate_of_insufficient env students attendance credentials did hget
          (by omega)]
        simp [hhigh]
  · show max 0 (8 - ((recordsOf attendance did).length : Int)) = 0 ↔ _
    rw [calculateAttendancePercentage_eq]
    constructor <;> intro h <;> omega

/-- C26 on Alice with eight records and no credential: she is eligible and
needs no further session. -/
theorem C26_eligibility_agrees_with_gates_witness :
    ∃ result, CredentialService.checkEligibility DIDService.students sampleEight
        (CredentialService.initializeMockData sampleSeedEnv []) "did:iota:alice123" = .ok result
      ∧ result.eligible = true ∧ result.sessionsNeeded = 0 := by
  obtain ⟨result, hres, helig, _, _, hzero⟩ :=
    C26_eligibility_agrees_with_gates (sampleIssueEnv 0) DIDService.students sampleEight
      (CredentialService.initializeMockData sampleSeedEnv []) "did:iota:alice123"
      (by unfold TimeValues; decide)
  have hpct : 80 ≤ AttendanceService.calculateAttendancePercentage sampleEight
      "did:iota:alice123" := by
    rw [calculateAttendancePercentage_eq]; decide
  exact ⟨result, hres, helig.mpr ⟨rfl, hpct⟩, hzero.mpr hpct⟩

/-- On a value that is neither `null` nor `undefined` the body of
`verifyCredential` does not throw. -/
theorem verifyCredentialBody_ok (credentials : CredentialStore) (credential : JsVal)
    (h : credential.isNullish = false) :
    ∃ result, CredentialService.verifyCredentialBody credentials credential = .ok result := by
  cases credential with
  | undefined => simp [JsVal.isNullish] at h
  | null => simp [JsVal.isNullish] at h
  | bool b => exact ⟨_, rfl⟩
  | num n => exact ⟨_, rfl⟩
  | str s => exact ⟨_, rfl⟩
  | arr items => exact ⟨_, rfl⟩
  | obj props =>
    simp only [CredentialService.verifyCredentialBody, JsVal.notProp, JsVal.getProp_obj]
    cases h1 : (JsObject.prop props "id").truthy <;>
    cases h2 : (JsObject.prop props "type").truthy <;>
    cases h3 : (JsObject.prop props "issuer").truthy <;>
    cases h4 : (JsObject.prop props "credentialSubject").truthy <;>
    simp [orElseM]
    cases h5 : (JsObject.prop props "proof").truthy
    · simp
    · simp only [JsVal.getProp_of_truthy _ _ h5, JsVal.getProp_of_truthy _ _ h4]
      cases h6 : ((JsObject.prop props "proof").prop "signature").truthy
      · simp
      · simp
        split <;> simp

/-- C30: `verifyCredential` returns for every input, one of five results, each
with a boolean `valid`; its body throws exactly on `null` and `undefined`, where
the method returns `valid: false` with `Verification failed`; an object without
`credentialSubject` or without `proof` or with a `proof` that is no object is
rejected; and the credential map after the call is the one before it. -/
theorem C30_verify_total (credentials : CredentialStore) (credential : JsVal) :
    (CredentialService.verifyCredentialCall credentials credential).1 = credentials
    ∧ (CredentialService.verifyCredentialCall credentials credential).2
        = CredentialService.verifyCredential credentials credential
    ∧ (CredentialService.verifyCredential credentials credential
          = { valid := false, error := some "Verification failed", message := none }
        ∨ CredentialService.verifyCredential credentials credential
          = { valid := false, error := some "Invalid credential structure", message := none }
        ∨ CredentialService.verifyCredential credentials credential
          = { valid := false, error := some "Missing proof", message := none }
        ∨ CredentialService.verifyCredential credentials credential
          = { valid := false, error := some "Credential not found in registry",
              message := none }
        ∨ CredentialService.verifyCredential credentials credential
          = { valid := true, error := none, message := some "Credential verified successfully" })
    ∧ ((∃ e, CredentialService.verifyCredentialBody credentials credential = .error e)
        ↔ credential.isNullish = true)
    ∧ CredentialService.verifyCredential credentials .null
        = { valid := false, error := some "Verification failed", message := none }
    ∧ CredentialService.verifyCredential credentials .undefined
        = { valid := false, error := some "Verification failed", message := none }
    ∧ CredentialService.verifyCredential credentials
          (.obj [("id", .str "x"), ("type", .str "t"), ("issuer", .str "i"),
                 ("proof", .obj [("signature", .str "s")])])
        = { valid := false, error := some "Invalid credential structure", message := none }
    ∧ CredentialService.verifyCredential credentials
          (.obj [("id", .str "x"), ("type", .str "t"), ("issuer", .str "i"),
                 ("credentialSubject", .obj [("id", .str "did:iota:alice123")])])
        = { valid := false, error := some "Missing proof", message := none }
    ∧ CredentialService.verifyCredential credentials
          (.obj [("id", .str "x"), ("type", .str "t"), ("issuer", .str "i"),
                 ("credentialSubject", .num 5), ("proof", .str "signed")])
        = { valid := false, error := some "Missing proof", message := none } := by
  refine ⟨rfl, rfl, ?_, ?_, rfl, rfl, ?_, ?_, ?_⟩
  · rw [verifyCredential_eq_verifyChecks]
    simp only [verifyChecks]
    cases credential.isNullish <;> cases structureOk credential <;> cases proofOk credential <;>
      cases inRegistry credentials credential <;> simp
  · constructor
    · rintro ⟨e, he⟩
      cases hn : credential.isNullish with
      | true => rfl
      | false =>
        obtain ⟨result, hres⟩ := verifyCredentialBody_ok credentials credential hn
        rw [hres] at he
        cases he
    · intro hn
      cases credential with
      | undefined => exact ⟨_, rfl⟩
      | null => exact ⟨_, rfl⟩
      | bool b => simp [JsVal.isNullish] at hn
      | num n => simp [JsVal.isNullish] at hn
      | str s => simp [JsVal.isNullish] at hn
      | arr items => simp [JsVal.isNullish] at hn
      | obj props => simp [JsVal.isNullish] at hn
  · rw [verifyCredential_eq_verifyChecks]; rfl
  · rw [verifyCredential_eq_verifyChecks]; rfl
  · rw [verifyCredential_eq_verifyChecks]; rfl

/-! ### Marking by NFC, automatic certificates, system statistics -/

/-- Whatever its arguments, `markAttendanceByNFC` throws the `TypeError` of the
call of `didService.getStudentByNFC` and leaves the store unchanged. -/
theorem markAttendanceByNFC_eq (env : MarkEnv) (students : List Student)
    (store : AttendanceStore) (nfcUid : String) :
    AttendanceService.markAttendanceByNFC env students store nfcUid
      = (store, .error (.typeError "didService.getStudentByNFC is not a function")) := rfl

/-- C23 (the code at a failing input): the NFC UID `A1B2C3D4` is the one of
Alice; `markAttendanceByNFC` on it throws the `TypeError` of
`didService.getStudentByNFC` and stores nothing, while `markAttendanceByDID` on
the DID of Alice stores a record and throws another error. For no arguments at
all does `markAttendanceByNFC` change the store. -/
theorem C23_mark_by_nfc_never_marks :
    DIDService.getStudentByNFCUid DIDService.students "A1B2C3D4"
      = DIDService.getStudentByDID DIDService.students "did:iota:alice123"
    ∧ (DIDService.getStudentByNFCUid DIDService.students "A1B2C3D4").success = true
    ∧ AttendanceService.markAttendanceByNFC (sampleEnv 0) DIDService.students [] "A1B2C3D4"
      = ([], .error (.typeError "didService.getStudentByNFC is not a function"))
    ∧ AttendanceService.markAttendanceByDID (sampleEnv 0) DIDService.students []
        "did:iota:alice123"
      = ([("did:iota:alice123",
            [{ timestamp := 1700000000000, sessionId := 7, transactionHash := some "ab" }])],
          .error (.typeError "didService.updateAttendanceCount is not a function"))
    ∧ ∀ (env : MarkEnv) (students : List Student) (store : AttendanceStore) (nfcUid : String),
        AttendanceService.markAttendanceByNFC env students store nfcUid
          = (store, .error (.typeError "didService.getStudentByNFC is not a function")) := by
  refine ⟨by decide, by decide, rfl, ?_, markAttendanceByNFC_eq⟩
  rw [markAttendanceByDID_of_day_free _ _ _ _ (by simp [recordsOf, JsMap.get, recordsOnDay])]
  simp [recordsOf, JsMap.get, JsMap.set, MarkEnv.newRecord, updateAttendanceCountMissing,
    sampleEnv]

/-- C24 (the code at a failing input): Alice has seven records and marks on an
eighth day. The call stores the eighth record, which brings her to 80 percent,
and then throws the `TypeError` of `didService.updateAttendanceCount`: it
reports nothing and reaches neither the certificate test of line 104 nor the
return. For no arguments at all does the call return a result. -/
theorem C24_no_automatic_certificate :
    AttendanceService.calculateAttendancePercentage sampleSeven "did:iota:alice123" = 70
    ∧ (AttendanceService.markAttendanceByDID (sampleEnv 7) DIDService.students sampleSeven
        "did:iota:alice123").2
      = .error (.typeError "didService.updateAttendanceCount is not a function")
    ∧ AttendanceService.calculateAttendancePercentage
        (AttendanceService.markAttendanceByDID (sampleEnv 7) DIDService.students sampleSeven
          "did:iota:alice123").1 "did:iota:alice123" = 80
    ∧ ∀ (env : MarkEnv) (students : List Student) (store : AttendanceStore) (did : String)
        (result : MarkResult),
        (AttendanceService.markAttendanceByDID env students store did).2 ≠ .ok result := by
  have hfree : recordsOnDay (recordsOf sampleSeven "did:iota:alice123")
      (dayBucket (sampleEnv 7).now) = [] := by decide
  refine ⟨?_, ?_, ?_, ?_⟩
  · rw [calculateAttendancePercentage_eq]; decide
  · rw [markAttendanceByDID_of_day_free _ _ _ _ hfree]
    rfl
  · rw [markAttendanceByDID_of_day_free _ _ _ _ hfree, calculateAttendancePercentage_eq,
      recordsOf_set_self]
    decide
  · intro env students store did result
    rcases markAttendanceByDID_outcome env students store did with h | h <;> rw [h] <;> simp

/-- The object `getAllStudents` returns is not iterable and has no `length`. -/
theorem getAllStudents_not_iterable (students : List Student) :
    (JsVal.obj (DIDService.getAllStudents students).toJs).iterate
        = .error (.typeError "value is not iterable")
    ∧ (JsVal.obj (DIDService.getAllStudents students).toJs).prop "length" = .undefined := by
  constructor
  · rfl
  · simp [AllStudents.toJs, JsVal.prop, JsObject.prop, JsMap.get]

/-- C25 (the code at a failing input): on the seeded students and attendance
records `getSystemStats` throws `Failed to get system statistics`, and so it
does for every state: `getAllStudents` returns the object
`{ success, students }`, whose `length` is `undefined` and over which the loop
of line 198 cannot iterate. -/
theorem C25_system_stats_always_throws :
    AttendanceService.getSystemStats "2023-11-15T08:00:00.000Z" DIDService.students sampleSeed
      = .error (.error "Failed to get system statistics")
    ∧ (JsVal.obj (DIDService.getAllStudents DIDService.students).toJs).prop "length"
      = .undefined
    ∧ (DIDService.getAllStudents DIDService.students).students.length = 3
    ∧ ∀ (lastUpdated : String) (students : List Student) (attendance : AttendanceStore),
        AttendanceService.getSystemStats lastUpdated students attendance
          = .error (.error "Failed to get system statistics") := by
  have hall : ∀ (lastUpdated : String) (students : List Student) (attendance : AttendanceStore),
      AttendanceService.getSystemStats lastUpdated students attendance
        = .error (.error "Failed to get system statistics") := by
    intro lastUpdated students attendance
    simp only [AttendanceService.getSystemStats, (getAllStudents_not_iterable students).1]
  exact ⟨hall _ _ _, (getAllStudents_not_iterable _).2, by decide, hall⟩

/-! ### The NFC service -/

theorem testAnchoredRepeat_iff (cls : Char → Bool) (min max : Nat) (text : List Char) :
    testAnchoredRepeat cls min max text = true
      ↔ min ≤ text.length ∧ text.length ≤ max ∧ ∀ c ∈ text, cls c = true := by
  simp only [testAnchoredRepeat, List.any_eq_true, List.mem_range, Bool.and_eq_true,
    decide_eq_true_eq, List.all_eq_true]
  constructor
  · rintro ⟨k, hk, ⟨⟨hmin, hle⟩, hall⟩, hdrop⟩
    have hge : text.length ≤ k := List.drop_eq_nil_iff.mp hdrop
    have hkeq : k = text.length := Nat.le_antisymm hle hge
    subst hkeq
    rw [List.take_length] at hall
    exact ⟨hmin, by omega, hall⟩
  · rintro ⟨hmin, hmax, hall⟩
    refine ⟨text.length, by omega, ⟨⟨hmin, Nat.le_refl _⟩, ?_⟩, ?_⟩
    · rw [List.take_length]; exact hall
    · exact List.drop_length text

theorem classMatchesI_hex (c : Char) :
    classMatchesI [⟨'0', '9'⟩, ⟨'A', 'F'⟩] c = true ↔ isHexChar c := by
  have h0 : '0'.toNat = 48 := rfl
  have h9 : '9'.toNat = 57 := rfl
  have hA : 'A'.toNat = 65 := rfl
  have hF : 'F'.toNat = 70 := rfl
  have ha : 'a'.toNat = 97 := rfl
  have hf : 'f'.toNat = 102 := rfl
  simp only [classMatchesI, canonicalCode, isHexChar, List.any_cons, List.any_nil,
    Bool.or_false, Bool.or_eq_true, Bool.and_eq_true, decide_eq_true_eq, h0, h9, hA, hF, ha, hf]
  split <;> omega

/-- C28: `validateNFCUID` accepts a text exactly when its length is between 8
and 16 and each of its characters is one of `0-9`, `a-f`, `A-F`; the three UIDs
of the seeded NFC mappings are accepted. -/
theorem C28_validate_hex_8_to_16 (uid : String) (env : NfcSeedEnv) :
    (NFCService.validateNFCUID uid = true
      ↔ 8 ≤ uid.length ∧ uid.length ≤ 16 ∧ ∀ c ∈ uid.data, isHexChar c)
    ∧ (NFCService.initializeMockData env []).keys
        = ["04A1B2C3D4E5F6", "04B2C3D4E5F6A7", "04C3D4E5F6A7B8"]
    ∧ NFCService.validateNFCUID "04A1B2C3D4E5F6" = true
    ∧ NFCService.validateNFCUID "04B2C3D4E5F6A7" = true
    ∧ NFCService.validateNFCUID "04C3D4E5F6A7B8" = true := by
  refine ⟨?_, ?_, by decide, by decide, by decide⟩
  · rw [NFCService.validateNFCUID, testAnchoredRepeat_iff]
    simp only [classMatchesI_hex]
    rfl
  · simp [NFCService.initializeMockData, JsMap.set, JsMap.keys]

theorem JsMap.mem_keys_of_get {α : Type} (m : JsMap α) (key : String) (value : α)
    (h : m.get key = some value) : key ∈ m.keys := by
  have := JsMap.mem_of_get m key value h
  simp only [JsMap.keys, List.mem_map]
  exact ⟨(key, value), this, rfl⟩

theorem registerNFC_of_invalid (env : RegisterEnv) (students : List Student)
    (mappings : NfcMappings) (nfcUid did : String)
    (h : NFCService.validateNFCUID nfcUid = false) :
    NFCService.registerNFC env students mappings nfcUid did
      = (mappings, .error (.error "Invalid NFC UID format")) := by
  simp [NFCService.registerNFC, h]

theorem registerNFC_of_taken (env : RegisterEnv) (students : List Student)
    (mappings : NfcMappings) (nfcUid did : String)
    (hvalid : NFCService.validateNFCUID nfcUid = true) (h : mappings.has nfcUid = true) :
    NFCService.registerNFC env students mappings nfcUid did
      = (mappings, .error (.error "NFC UID already registered")) := by
  simp [NFCService.registerNFC, hvalid, h]

/-- The map `registerNFC` leaves behind: unchanged, or one entry set under a
valid UID. -/
theorem registerNFC_store (env : RegisterEnv) (students : List Student)
    (mappings : NfcMappings) (nfcUid did : String) :
    (NFCService.registerNFC env students mappings nfcUid did).1 = mappings
    ∨ (NFCService.validateNFCUID nfcUid = true ∧ mappings.has nfcUid = false
        ∧ ∃ nfcData, (NFCService.registerNFC env students mappings nfcUid did).1
            = mappings.set nfcUid nfcData) := by
  cases hvalid : NFCService.validateNFCUID nfcUid with
  | false => left; rw [registerNFC_of_invalid env students mappings nfcUid did hvalid]
  | true =>
    cases hhas : mappings.has nfcUid with
    | true => left; rw [registerNFC_of_taken env students mappings nfcUid did hvalid hhas]
    | false =>
      right
      refine ⟨rfl, rfl, ?_⟩
      simp only [NFCService.registerNFC, hvalid, hhas, StudentLookup.truthy_eq_true,
        Bool.not_true, Bool.false_eq_true, if_false]
      exact ⟨_, rfl⟩

/-- C27: `registerNFC` throws `Invalid NFC UID format` for every UID that
`validateNFCUID` rejects, and `NFC UID already registered` for every UID that is
present in the mappings, given that the keys of the mappings are valid UIDs, as
they are in the seeded mappings and after every `registerNFC`; in both cases,
and whenever the UID is present, the mappings are left unchanged. -/
theorem C27_register_rejects (env : RegisterEnv) (students : List Student)
    (mappings : NfcMappings) (nfcUid did : String) (seedEnv : NfcSeedEnv) :
    (NFCService.validateNFCUID nfcUid = false →
      NFCService.registerNFC env students mappings nfcUid did
        = (mappings, .error (.error "Invalid NFC UID format")))
    ∧ (KeysValid mappings → mappings.has nfcUid = true →
      NFCService.registerNFC env students mappings nfcUid did
        = (mappings, .error (.error "NFC UID already registered")))
    ∧ (mappings.has nfcUid = true →
      (NFCService.registerNFC env students mappings nfcUid did).1 = mappings)
    ∧ (KeysValid mappings →
      KeysValid (NFCService.registerNFC env students mappings nfcUid did).1)
    ∧ KeysValid (NFCService.initializeMockData seedEnv []) := by
  refine ⟨registerNFC_of_invalid env students mappings nfcUid did, ?_, ?_, ?_, ?_⟩
  · intro hkeys hhas
    obtain ⟨value, hvalue⟩ := Option.isSome_iff_exists.mp hhas
    exact registerNFC_of_taken env students mappings nfcUid did
      (hkeys nfcUid (JsMap.mem_keys_of_get mappings nfcUid value hvalue)) hhas
  · intro hhas
    rcases registerNFC_store env students mappings nfcUid did with h | ⟨_, hfree, _⟩
    · exact h
    · rw [hhas] at hfree; cases hfree
  · intro hkeys
    rcases registerNFC_store env students mappings nfcUid did with h | ⟨hvalid, hfree, data, hset⟩
    · rw [h]; exact hkeys
    · rw [hset]
      have hnone : mappings.get nfcUid = none := by
        simpa [JsMap.has] using hfree
      intro uid huid
      rw [JsMap.keys_set_of_get_none mappings nfcUid data hnone, List.mem_append] at huid
      rcases huid with h | h
      · exact hkeys uid h
      · simp only [List.mem_singleton] at h
        rw [h]; exact hvalid
  · intro uid huid
    have hkeys : (NFCService.initializeMockData seedEnv []).keys
        = ["04A1B2C3D4E5F6", "04B2C3D4E5F6A7", "04C3D4E5F6A7B8"] := by
      simp [NFCService.initializeMockData, JsMap.set, JsMap.keys]
    rw [hkeys] at huid
    simp only [List.mem_cons, List.mem_singleton, List.not_mem_nil, or_false] at huid
    rcases huid with h | h | h <;> rw [h] <;> decide

/-- C27 on the seeded mappings: a UID with the letter G is rejected as invalid,
and the seeded UID of student1 is rejected as already registered. -/
theorem C27_register_rejects_witness :
    NFCService.registerNFC sampleRegisterEnv DIDService.students
        (NFCService.initializeMockData sampleNfcSeedEnv []) "E5F6G7H8" "did:iota:bob456"
      = (NFCService.initializeMockData sampleNfcSeedEnv [],
          .error (.error "Invalid NFC UID format"))
    ∧ NFCService.registerNFC sampleRegisterEnv DIDService.students
        (NFCService.initializeMockData sampleNfcSeedEnv []) "04A1B2C3D4E5F6" "did:iota:bob456"
      = (NFCService.initializeMockData sampleNfcSeedEnv [],
          .error (.error "NFC UID already registered")) :=
  ⟨(C27_register_rejects sampleRegisterEnv DIDService.students
      (NFCService.initializeMockData sampleNfcSeedEnv []) "E5F6G7H8" "did:iota:bob456"
      sampleNfcSeedEnv).1 (by decide),
   (C27_register_rejects sampleRegisterEnv DIDService.students
      (NFCService.initializeMockData sampleNfcSeedEnv []) "04A1B2C3D4E5F6" "did:iota:bob456"
      sampleNfcSeedEnv).2.1
      (C27_register_rejects sampleRegisterEnv DIDService.students
        (NFCService.initializeMockData sampleNfcSeedEnv []) "04A1B2C3D4E5F6" "did:iota:bob456"
        sampleNfcSeedEnv).2.2.2.2 (by decide)⟩
